import Mathlib

/-!
Verification of the quiz-backend grading core (`quizz-core`): a shallow
embedding of the answer-key index (`Store.GetQuizAnswers`), the grading
engine (`QuizService.SubmitAnswers`), the transactional submission
persister (`Store.SaveSubmissionStats`) and the detail reconstructor
(`Store.GetSubmissionDetails`), together with theorems about the
specified properties of those components.

Conventions of the embedding:
- Go `map` values are modelled as association lists built with a
  replace-or-append update (`setAssoc`), which has exactly the lookup /
  length semantics of a Go map whose keys are inserted via assignment.
- Go `*T` (nullable) fields and `sql.Null*` values are modelled as
  `Option`.
- `float64` scores are modelled as `ℚ`; the only arithmetic performed on
  scores by the code is one division and one multiplication straight from
  integer counters, and the specification describes the intended value as
  the exact real `(correct / total) × 100`.
- Go `int` is modelled as `Int` (no arithmetic in the grading core can
  overflow 64 bits for realistic row counts, and no claim concerns
  overflow); `strconv.Atoi`'s int64 range check is likewise not modelled.
- Iteration over a Go map (`for ... range m`) has unspecified order; where
  the source iterates over a map to produce output, the embedding takes
  the iteration order as an explicit parameter constrained to enumerate
  each key exactly once.
-/

namespace QuizCore

/-- The decimal digit character for `n % 10`-style values below ten. -/
def digitChar (n : Nat) : Char :=
  match n with
  | 0 => '0'
  | 1 => '1'
  | 2 => '2'
  | 3 => '3'
  | 4 => '4'
  | 5 => '5'
  | 6 => '6'
  | 7 => '7'
  | 8 => '8'
  | _ => '9'

/-- Fuel-driven digit emitter: prepends the decimal digits of `n` to `acc`.
The fuel is an embedding artifact; `natToDigits` always supplies enough. -/
def natToDigitsCore : Nat → Nat → List Char → List Char
  | 0, _, acc => acc
  | fuel + 1, n, acc =>
    if n < 10 then digitChar n :: acc
    else natToDigitsCore fuel (n / 10) (digitChar (n % 10) :: acc)

/-- The decimal digit string of a natural number, most significant first. -/
def natToDigits (n : Nat) : List Char := natToDigitsCore (n + 1) n []

/-- Embedding of Go `strconv.Itoa`: minimal decimal representation, with a
leading minus sign for negative values. -/
def itoa (i : Int) : String :=
  if i < 0 then String.mk ('-' :: natToDigits i.natAbs)
  else String.mk (natToDigits i.toNat)

/-- The numeric value of a decimal digit character, if it is one. -/
def digitVal (c : Char) : Option Nat :=
  if 48 ≤ c.toNat ∧ c.toNat ≤ 57 then some (c.toNat - 48) else none

/-- Left-to-right accumulation of decimal digits; fails on a non-digit. -/
def parseDigitsAux : List Char → Nat → Option Nat
  | [], acc => some acc
  | c :: rest, acc =>
    match digitVal c with
    | some d => parseDigitsAux rest (acc * 10 + d)
    | none => none

/-- Parses a non-empty all-digit string; the empty string is rejected. -/
def parseDigits (l : List Char) : Option Nat :=
  match l with
  | [] => none
  | c :: rest => parseDigitsAux (c :: rest) 0

/-- Character-list form of `atoi`: an optional single sign followed by at
least one decimal digit; anything else is a parse error (`none`). -/
def atoiChars : List Char → Option Int
  | [] => none
  | c :: rest =>
    if c = '-' then (parseDigits rest).map (fun n => -(Int.ofNat n))
    else if c = '+' then (parseDigits rest).map (fun n => Int.ofNat n)
    else (parseDigits (c :: rest)).map (fun n => Int.ofNat n)

/-- Embedding of Go `strconv.Atoi`, acting on the string's characters. -/
def atoi (s : String) : Option Int := atoiChars s.data

variable {κ : Type} {α : Type} {β : Type} {ρ : Type}

/-! ## Association lists modelling Go maps -/
/-- Go map read `m[k]` (with the ok flag as `isSome`). -/
def lookupA [DecidableEq κ] : List (κ × α) → κ → Option α
  | [], _ => none
  | (k', a) :: rest, k => if k' = k then some a else lookupA rest k

/-- Go map write `m[k] = a`: replace the binding if the key is present,
append a new binding otherwise. -/
def setAssoc [DecidableEq κ] : List (κ × α) → κ → α → List (κ × α)
  | [], k, a => [(k, a)]
  | (k', a') :: rest, k, a =>
    if k' = k then (k, a) :: rest else (k', a') :: setAssoc rest k a

/-- The keys of the map (Go map keys; no duplicates when built by
`setAssoc` from the empty map). -/
def keysA (m : List (κ × α)) : List κ := m.map Prod.fst

/-! ## The grouping fold shared by `GetQuizAnswers` and
`GetSubmissionDetails`: iterate rows, look the row's group key up in an
accumulator map, create the group entry on first sight, update it, and
store it back. -/
/-- One iteration of the Go grouping loop over a row `r`:
`info, exists := m[key r]; if !exists { info = init r }; m[key r] = upd info r`. -/
def groupStep [DecidableEq κ] (key : ρ → κ) (init : ρ → α) (upd : α → ρ → α)
    (m : List (κ × α)) (r : ρ) : List (κ × α) :=
  match lookupA m (key r) with
  | some a => setAssoc m (key r) (upd a r)
  | none => setAssoc m (key r) (upd (init r) r)

/-- The whole grouping loop, starting from the empty map. -/
def groupFold [DecidableEq κ] (key : ρ → κ) (init : ρ → α) (upd : α → ρ → α)
    (rows : List ρ) : List (κ × α) :=
  rows.foldl (groupStep key init upd) []

/-- The value accumulated for one group, from that group's rows alone. -/
def groupAgg (init : ρ → α) (upd : α → ρ → α) : List ρ → Option α
  | [] => none
  | h :: t => some (t.foldl upd (upd (init h) h))

/-- First-seen deduplication: the order in which new keys are appended to
the grouping map, given the keys already present. -/
def newKeys [DecidableEq κ] (seen : List κ) : List κ → List κ
  | [] => []
  | k :: rest => if k ∈ seen then newKeys seen rest
                 else k :: newKeys (seen ++ [k]) rest

/-! ## Last-match and first-match scans used to state the grouping
policies of the specification (last correct row wins, and so on). -/
/-- The last element of the list satisfying the predicate, if any. -/
def lastMatch? (p : ρ → Bool) : List ρ → Option ρ
  | [] => none
  | r :: rest =>
    match lastMatch? p rest with
    | some r' => some r'
    | none => if p r then some r else none

/-- The first `some` value produced by `f` along the list, if any. -/
def firstSome (f : ρ → Option β) : List ρ → Option β
  | [] => none
  | r :: rest =>
    match f r with
    | some b => some b
    | none => firstSome f rest

/-! ## Data model

Structures mirroring `internal/models/models.go` and the row structs of
`internal/store/submission_repo.go`. Nullable Go fields (`*T`,
`sql.NullInt64`, `sql.NullBool`) are `Option`s. -/
/-- `store.dbAnswerRow`: one flat (question, option) row of the key query. -/
structure DbAnswerRow where
  questionID : Int
  questionAssunto : Option String
  respostaID : Int
  corpoResposta : String
  correta : Bool
deriving DecidableEq, Repr

/-- `store.QuestionAnswerInfo`: the per-question entry of the answer key. -/
structure QuestionAnswerInfo where
  questionID : Int
  assunto : String
  correctOptionText : String
  optionsMap : List (String × Int)
deriving DecidableEq, Repr

/-- `models.UserAnswer`: one submitted answer. -/
structure UserAnswer where
  questionID : String
  selectedOption : String
deriving DecidableEq, Repr

/-- `models.RespostaDada` draft as built by `SubmitAnswers` (the fields the
service fills in; `ID` and `SubmissaoID` are assigned by the store). -/
structure RespostaDada where
  perguntaID : Int
  respostaID : Option Int
  corretaNaSubmissao : Option Bool
deriving DecidableEq, Repr

/-- `models.Dificuldade` draft as built by `SubmitAnswers`. -/
structure Dificuldade where
  assunto : Option String
deriving DecidableEq, Repr

/-- `models.Submissao` (timestamp modelled as an integer clock value). -/
structure Submissao where
  id : Int
  dataHora : Int
  pontuacao : ℚ
  utilizadorID : Int
  quizzID : Int
deriving DecidableEq, Repr

/-! ## AnswerKeyIndex: the pure row-processing part of
`Store.GetQuizAnswers` (internal/store/submission_repo.go, lines 54-86).
The SQL query returns the flat rows; the Go loop below it is embedded
verbatim as a grouping fold keyed by `strconv.Itoa(row.QuestionID)`. -/
/-- The map entry created on first sight of a question
(`QuestionAnswerInfo{QuestionID: ..., Assunto: "", OptionsMap: ...}` plus
the `if row.QuestionAssunto != nil` assignment). `CorrectOptionText`
starts as the zero value `""`. -/
def initAnswerInfo (row : DbAnswerRow) : QuestionAnswerInfo :=
  { questionID := row.questionID
    assunto := match row.questionAssunto with
               | some a => a
               | none => ""
    correctOptionText := ""
    optionsMap := [] }

/-- The per-row update: `info.OptionsMap[row.CorpoResposta] = row.RespostaID`
and, if `row.Correta`, `info.CorrectOptionText = row.CorpoResposta`. -/
def updAnswerInfo (info : QuestionAnswerInfo) (row : DbAnswerRow) : QuestionAnswerInfo :=
  let info1 := { info with
    optionsMap := setAssoc info.optionsMap row.corpoResposta row.respostaID }
  if row.correta then { info1 with correctOptionText := row.corpoResposta }
  else info1

/-- The answer map built by `GetQuizAnswers` from the flat key rows. -/
def getQuizAnswersFromRows (rows : List DbAnswerRow) : List (String × QuestionAnswerInfo) :=
  groupFold (fun row => itoa row.questionID) initAnswerInfo updAnswerInfo rows

/-! ## GradingEngine: the answer-comparison loop and scoring of
`QuizService.SubmitAnswers` (internal/service/service.go, lines 88-146). -/
/-- Accumulated grading state: `correctCount`, `respostasDadas`,
`dificuldades` of the Go loop. -/
structure GradeResult where
  correctCount : Nat
  respostasDadas : List RespostaDada
  dificuldades : List Dificuldade
deriving DecidableEq, Repr

/-- One iteration of the `for _, userAnswer := range req.Answers` loop:
parse the question-id token (`continue` on failure), look the raw token up
in the answer map (`continue` when absent), compare the selected text with
the stored correct text, resolve the option id via the text→id map, then
accumulate the counters and drafts. -/
def gradeStep (answerMap : List (String × QuestionAnswerInfo))
    (acc : GradeResult) (ua : UserAnswer) : GradeResult :=
  match atoi ua.questionID with
  | none => acc
  | some questionID =>
    match lookupA answerMap ua.questionID with
    | none => acc
    | some questionInfo =>
      let isCorrect : Bool := ua.selectedOption = questionInfo.correctOptionText
      let selectedAnswerID := lookupA questionInfo.optionsMap ua.selectedOption
      let acc1 :=
        if isCorrect then { acc with correctCount := acc.correctCount + 1 }
        else { acc with
          dificuldades := acc.dificuldades ++ [{ assunto := some questionInfo.assunto }] }
      { acc1 with
        respostasDadas := acc1.respostasDadas ++
          [{ perguntaID := questionID
             respostaID := selectedAnswerID
             corretaNaSubmissao := some isCorrect }] }

/-- The whole grading loop over the submitted answers. -/
def gradeAnswers (answerMap : List (String × QuestionAnswerInfo))
    (answers : List UserAnswer) : GradeResult :=
  answers.foldl (gradeStep answerMap) ⟨0, [], []⟩

/-- Step 5 of `SubmitAnswers`: `score = 0`, and if `totalCount > 0` then
`score = (float64(correctCount) / float64(totalCount)) * 100.0`. -/
def computeScore (correctCount totalCount : Nat) : ℚ :=
  if 0 < totalCount then ((correctCount : ℚ) / (totalCount : ℚ)) * 100 else 0

/-- What `SubmitAnswers` computes from the fetched answer map before and
besides persisting: the response counters and the draft rows to save. -/
structure SubmissionOutcome where
  score : ℚ
  correctCount : Nat
  totalCount : Nat
  respostasDadas : List RespostaDada
  dificuldades : List Dificuldade
deriving DecidableEq, Repr

/-- `SubmitAnswers` after the answer map has been fetched: `none` models
the `ErrNotFound` return for an empty key (`len(answerMap) == 0`);
otherwise the grading loop runs, `totalCount = len(answerMap)`, and the
score is computed. -/
def submitAnswersCore (answerMap : List (String × QuestionAnswerInfo))
    (answers : List UserAnswer) : Option SubmissionOutcome :=
  if answerMap.length = 0 then none
  else
    let g := gradeAnswers answerMap answers
    some { score := computeScore g.correctCount answerMap.length
           correctCount := g.correctCount
           totalCount := answerMap.length
           respostasDadas := g.respostasDadas
           dificuldades := g.dificuldades }

/-! ## SubmissionPersister: `Store.SaveSubmissionStats`
(internal/store/submission_repo.go, lines 89-146).

The database is modelled as an explicit state holding the three tables;
each SQL statement either succeeds or fails according to a failure oracle
supplied by the environment (the database's view of constraint violations,
connection errors and so on). The Go function opens a transaction with a
deferred rollback, so a failure at any statement leaves the caller-visible
state exactly as it was; only `tx.Commit()` publishes the built-up
transaction state. -/
/-- The database operations `SaveSubmissionStats` issues, in order. -/
inductive DbOp where
  | beginTx : DbOp
  | insertSubmissao : DbOp
  | insertRespostaDada : Nat → DbOp
  | insertDificuldade : Nat → DbOp
  | commitTx : DbOp
deriving DecidableEq, Repr

/-- The visible database state: the `submissao`, `respostas_dadas` and
`dificuldades` tables (dependent rows tagged with their submission id) and
the sequence counter that generates submission ids. -/
structure DBState where
  submissoes : List Submissao
  respostasDadas : List (Int × RespostaDada)
  dificuldades : List (Int × Dificuldade)
  nextSubmissaoID : Int
deriving DecidableEq, Repr

/-- The `for _, dada := range dadas` insert loop inside the transaction,
numbering the statements so the oracle can fail any one of them. -/
def txInsertDadas (fails : DbOp → Bool) (subID : Int) :
    List RespostaDada → Nat → DBState → Except DbOp DBState
  | [], _, st => .ok st
  | dada :: rest, i, st =>
    if fails (.insertRespostaDada i) then .error (.insertRespostaDada i)
    else txInsertDadas fails subID rest (i + 1)
      { st with respostasDadas := st.respostasDadas ++ [(subID, dada)] }

/-- The `for _, dif := range difs` insert loop inside the transaction. -/
def txInsertDifs (fails : DbOp → Bool) (subID : Int) :
    List Dificuldade → Nat → DBState → Except DbOp DBState
  | [], _, st => .ok st
  | dif :: rest, i, st =>
    if fails (.insertDificuldade i) then .error (.insertDificuldade i)
    else txInsertDifs fails subID rest (i + 1)
      { st with dificuldades := st.dificuldades ++ [(subID, dif)] }

/-- The transaction body: insert the submission (`RETURNING` the generated
id), then every given answer, then every difficulty row. -/
def txBody (fails : DbOp → Bool) (st : DBState) (sub : Submissao)
    (dadas : List RespostaDada) (difs : List Dificuldade) :
    Except DbOp (DBState × Submissao) :=
  if fails .insertSubmissao then .error .insertSubmissao
  else
    match txInsertDadas fails st.nextSubmissaoID dadas 0
      { st with
        submissoes := st.submissoes ++ [{ sub with id := st.nextSubmissaoID }]
        nextSubmissaoID := st.nextSubmissaoID + 1 } with
    | .error e => .error e
    | .ok st2 =>
      match txInsertDifs fails st.nextSubmissaoID difs 0 st2 with
      | .error e => .error e
      | .ok st3 => .ok (st3, { sub with id := st.nextSubmissaoID })

/-- `SaveSubmissionStats`: begin a transaction (with `defer tx.Rollback()`),
run the three insert steps, commit. The returned state is what later
readers see: on any error the rollback leaves the initial state. -/
def saveSubmissionStats (fails : DbOp → Bool) (st : DBState) (sub : Submissao)
    (dadas : List RespostaDada) (difs : List Dificuldade) :
    DBState × Except DbOp Submissao :=
  if fails .beginTx then (st, .error .beginTx)
  else
    match txBody fails st sub dadas difs with
    | .error e => (st, .error e)
    | .ok (st', savedSub) =>
      if fails .commitTx then (st, .error .commitTx)
      else (st', .ok savedSub)

/-! ## DetailReconstructor: the pure row-processing part of
`Store.GetSubmissionDetails` (internal/store/submission_repo.go,
lines 173-286). The final `for _, p := range perguntasMap` ranges over a
Go map, whose iteration order is unspecified; the embedding therefore
takes that order as an explicit `emitOrder` parameter, constrained in the
theorems to enumerate each key of the map exactly once. -/
/-- `store.submissionDetailDBRow`: one row of the five-table join. -/
structure SubmissionDetailDBRow where
  submissionID : Int
  quizID : Int
  quizNome : String
  temaNome : String
  pontuacao : ℚ
  dataHora : Int
  perguntaID : Int
  corpoPergunta : String
  assunto : Option String
  respostaID : Int
  corpoResposta : String
  correta : Bool
  respostaDadaID : Option Int
  corretaNaSubmissao : Option Bool
deriving DecidableEq, Repr

/-- `models.AnswerOptionDetail`. -/
structure AnswerOptionDetail where
  respostaID : Int
  corpo : String
deriving DecidableEq, Repr

/-- `models.QuestionDetailResponse`. -/
structure QuestionDetailResponse where
  perguntaID : Int
  corpoPergunta : String
  assunto : Option String
  opcoes : List AnswerOptionDetail
  respostaUtilizador : Option String
  respostaCorreta : String
  acertou : Bool
deriving DecidableEq, Repr

/-- `models.SubmissionDetailResponse`. -/
structure SubmissionDetailResponse where
  submissionID : Int
  quizID : Int
  quizNome : String
  temaNome : String
  pontuacao : ℚ
  dataHora : Int
  perguntas : List QuestionDetailResponse
deriving DecidableEq, Repr

/-- The accumulator created on first sight of a question id: body, subject
and `Acertou: row.CorretaNaSubmissao.Bool` (a `sql.NullBool`'s `.Bool`
field is `false` when invalid); `Opcoes` empty, `RespostaCorreta` the zero
value `""`, `RespostaUtilizador` nil. -/
def initQuestionDetail (row : SubmissionDetailDBRow) : QuestionDetailResponse :=
  { perguntaID := row.perguntaID
    corpoPergunta := row.corpoPergunta
    assunto := row.assunto
    opcoes := []
    respostaUtilizador := none
    respostaCorreta := ""
    acertou := match row.corretaNaSubmissao with
               | some b => b
               | none => false }

/-- The per-row update: append the option; if `row.Correta`, record this
option's text as the correct answer; if the left-joined given-answer id is
valid and equals this option's id, record this option's text as the user's
answer. -/
def updQuestionDetail (d : QuestionDetailResponse) (row : SubmissionDetailDBRow) :
    QuestionDetailResponse :=
  let d1 := { d with
    opcoes := d.opcoes ++ [{ respostaID := row.respostaID, corpo := row.corpoResposta }] }
  let d2 := if row.correta then { d1 with respostaCorreta := row.corpoResposta } else d1
  if row.respostaDadaID = some row.respostaID
  then { d2 with respostaUtilizador := some row.corpoResposta }
  else d2

/-- The `perguntasMap` grouping of the join rows by question id. -/
def buildPerguntasMap (rows : List SubmissionDetailDBRow) :
    List (Int × QuestionDetailResponse) :=
  groupFold (fun row => row.perguntaID) initQuestionDetail updQuestionDetail rows

/-- `GetSubmissionDetails` on the fetched join rows: `none` models the
`sql.ErrNoRows` not-found return for an empty result; otherwise the header
is taken from the first row and the questions are emitted by ranging over
`perguntasMap` in the (unspecified) order `emitOrder`. -/
def getSubmissionDetails (rows : List SubmissionDetailDBRow)
    (emitOrder : List Int) : Option SubmissionDetailResponse :=
  match rows with
  | [] => none
  | firstRow :: _ =>
    some { submissionID := firstRow.submissionID
           quizID := firstRow.quizID
           quizNome := firstRow.quizNome
           temaNome := firstRow.temaNome
           pontuacao := firstRow.pontuacao
           dataHora := firstRow.dataHora
           perguntas := emitOrder.filterMap (fun k => lookupA (buildPerguntasMap rows) k) }

/-- The key rows contributing to the map entry with key `k`. -/
def answerGroup (rows : List DbAnswerRow) (k : String) : List DbAnswerRow :=
  rows.filter (fun r => decide (itoa r.questionID = k))

/-- Whether an answer is actually graded (not skipped) by the loop: its
token parses and the raw token is a key of the answer map. -/
def gradedB (m : List (String × QuestionAnswerInfo)) (ua : UserAnswer) : Bool :=
  (atoi ua.questionID).isSome && (lookupA m ua.questionID).isSome

/-- The join rows contributing to the detail entry of question `k`. -/
def detailGroup (rows : List SubmissionDetailDBRow) (k : Int) :
    List SubmissionDetailDBRow :=
  rows.filter (fun r => decide (r.perguntaID = k))

/-! ## Decimal conversions: `strconv.Itoa` and `strconv.Atoi` -/

/-! ### Round-trip facts about the conversions -/

theorem digitVal_digitChar (d : Nat) (h : d < 10) :
    digitVal (digitChar d) = some d := by
  interval_cases d <;> rfl

theorem digitChar_ne_minus (d : Nat) (h : d < 10) : digitChar d ≠ '-' := by
  interval_cases d <;> decide

theorem digitChar_ne_plus (d : Nat) (h : d < 10) : digitChar d ≠ '+' := by
  interval_cases d <;> decide

theorem natToDigitsCore_fuel :
    ∀ f₁ f₂ n acc, n < f₁ → n < f₂ →
      natToDigitsCore f₁ n acc = natToDigitsCore f₂ n acc := by
  intro f₁
  induction f₁ with
  | zero => intro f₂ n acc h₁ _; omega
  | succ f ih =>
    intro f₂ n acc h₁ h₂
    cases f₂ with
    | zero => omega
    | succ f' =>
      simp only [natToDigitsCore]
      by_cases hn : n < 10
      · simp [hn]
      · simp only [hn, if_false]
        have hd : n / 10 < n := Nat.div_lt_self (by omega) (by omega)
        exact ih f' (n / 10) _ (by omega) (by omega)

theorem natToDigitsCore_acc :
    ∀ f n acc, n < f →
      natToDigitsCore f n acc = natToDigitsCore f n [] ++ acc := by
  intro f
  induction f with
  | zero => intro n acc h; omega
  | succ f ih =>
    intro n acc h
    simp only [natToDigitsCore]
    by_cases hn : n < 10
    · simp [hn]
    · simp only [hn, if_false]
      have hd : n / 10 < n := Nat.div_lt_self (by omega) (by omega)
      rw [ih (n / 10) (digitChar (n % 10) :: acc) (by omega),
          ih (n / 10) [digitChar (n % 10)] (by omega)]
      simp

theorem natToDigits_recurrence (n : Nat) :
    natToDigits n =
      if n < 10 then [digitChar n]
      else natToDigits (n / 10) ++ [digitChar (n % 10)] := by
  by_cases hn : n < 10
  · simp [natToDigits, natToDigitsCore, hn]
  · have hd : n / 10 < n := Nat.div_lt_self (by omega) (by omega)
    have h1 : natToDigits n = natToDigitsCore n (n / 10) [digitChar (n % 10)] := by
      simp [natToDigits, natToDigitsCore, hn]
    rw [if_neg hn, h1,
        natToDigitsCore_fuel n (n / 10 + 1) (n / 10) _ (by omega) (by omega),
        natToDigitsCore_acc (n / 10 + 1) (n / 10) _ (by omega)]
    rfl

theorem natToDigits_ne_nil (n : Nat) : natToDigits n ≠ [] := by
  rw [natToDigits_recurrence]
  by_cases hn : n < 10 <;> simp [hn]

theorem natToDigits_head (n : Nat) :
    ∃ d rest, natToDigits n = digitChar d :: rest ∧ d < 10 := by
  induction n using Nat.strong_induction_on with
  | _ n ih =>
    rw [natToDigits_recurrence]
    by_cases hn : n < 10
    · exact ⟨n, [], by simp [hn], hn⟩
    · have hd : n / 10 < n := Nat.div_lt_self (by omega) (by omega)
      obtain ⟨d, rest, heq, hlt⟩ := ih (n / 10) hd
      exact ⟨d, rest ++ [digitChar (n % 10)], by simp [hn, heq], hlt⟩

theorem parseDigitsAux_append (l₁ l₂ : List Char) (v : Nat) :
    parseDigitsAux (l₁ ++ l₂) v =
      match parseDigitsAux l₁ v with
      | some a => parseDigitsAux l₂ a
      | none => none := by
  induction l₁ generalizing v with
  | nil => simp [parseDigitsAux]
  | cons c rest ih =>
    simp only [List.cons_append, parseDigitsAux]
    cases digitVal c with
    | none => simp
    | some d => simp [ih]

theorem parseDigitsAux_natToDigits (n : Nat) :
    ∀ v, parseDigitsAux (natToDigits n) v =
      some (v * 10 ^ (natToDigits n).length + n) := by
  induction n using Nat.strong_induction_on with
  | _ n ih =>
    intro v
    rw [natToDigits_recurrence]
    by_cases hn : n < 10
    · simp [hn, parseDigitsAux, digitVal_digitChar n hn]
    · have hd : n / 10 < n := Nat.div_lt_self (by omega) (by omega)
      simp only [hn, if_false]
      rw [parseDigitsAux_append, ih (n / 10) hd v]
      simp only [parseDigitsAux, digitVal_digitChar (n % 10) (by omega)]
      have harith : (v * 10 ^ (natToDigits (n / 10)).length + n / 10) * 10 + n % 10 =
          v * 10 ^ ((natToDigits (n / 10)).length + 1) + n := by
        have hmod : n / 10 * 10 + n % 10 = n := by omega
        calc (v * 10 ^ (natToDigits (n / 10)).length + n / 10) * 10 + n % 10
            = v * (10 ^ (natToDigits (n / 10)).length * 10) +
                (n / 10 * 10 + n % 10) := by ring
          _ = v * 10 ^ ((natToDigits (n / 10)).length + 1) + n := by
              rw [hmod, pow_succ]
      simp [harith]

theorem parseDigits_natToDigits (n : Nat) :
    parseDigits (natToDigits n) = some n := by
  obtain ⟨d, rest, heq, _⟩ := natToDigits_head n
  rw [heq, parseDigits, ← heq, parseDigitsAux_natToDigits]
  simp

/-- `strconv.Atoi` inverts `strconv.Itoa`: the canonical decimal string of
an integer always parses back to that integer. -/
theorem atoi_itoa (i : Int) : atoi (itoa i) = some i := by
  by_cases hneg : i < 0
  · have h1 : atoi (itoa i) =
        (parseDigits (natToDigits i.natAbs)).map (fun n => -(Int.ofNat n)) := by
      rw [itoa, if_pos hneg]; rfl
    rw [h1, parseDigits_natToDigits, Option.map_some']
    congr 1
    simp only [Int.ofNat_eq_coe]
    omega
  · obtain ⟨d, rest, heq, hlt⟩ := natToDigits_head i.toNat
    have h1 : atoi (itoa i) = atoiChars (digitChar d :: rest) := by
      rw [itoa, if_neg hneg, ← heq]; rfl
    rw [h1]
    simp only [atoiChars,
      if_neg (digitChar_ne_minus d hlt), if_neg (digitChar_ne_plus d hlt)]
    rw [← heq, parseDigits_natToDigits, Option.map_some']
    congr 1
    simp only [Int.ofNat_eq_coe]
    omega

theorem itoa_injective {a b : Int} (h : itoa a = itoa b) : a = b := by
  have ha := atoi_itoa a
  rw [h, atoi_itoa b] at ha
  exact (Option.some_inj.mp ha).symm

theorem lookupA_setAssoc_self [DecidableEq κ] (m : List (κ × α)) (k : κ) (a : α) :
    lookupA (setAssoc m k a) k = some a := by
  induction m with
  | nil => simp [setAssoc, lookupA]
  | cons p rest ih =>
    obtain ⟨k', a'⟩ := p
    by_cases h : k' = k
    · simp [setAssoc, h, lookupA]
    · simp [setAssoc, h, lookupA, ih]

theorem lookupA_setAssoc_ne [DecidableEq κ] (m : List (κ × α)) (k k' : κ) (a : α)
    (h : k ≠ k') : lookupA (setAssoc m k a) k' = lookupA m k' := by
  induction m with
  | nil => simp [setAssoc, lookupA, h]
  | cons p rest ih =>
    obtain ⟨k₀, a₀⟩ := p
    by_cases h₀ : k₀ = k
    · subst h₀
      simp [setAssoc, lookupA, h]
    · simp only [setAssoc, if_neg h₀, lookupA]
      by_cases h₁ : k₀ = k' <;> simp [h₁, ih]

theorem keysA_setAssoc [DecidableEq κ] (m : List (κ × α)) (k : κ) (a : α) :
    keysA (setAssoc m k a) =
      if k ∈ keysA m then keysA m else keysA m ++ [k] := by
  induction m with
  | nil => simp [setAssoc, keysA]
  | cons p rest ih =>
    obtain ⟨k₀, a₀⟩ := p
    by_cases h₀ : k₀ = k
    · subst h₀
      simp [setAssoc, keysA]
    · simp only [setAssoc, if_neg h₀, keysA, List.map_cons] at ih ⊢
      by_cases hm : k ∈ List.map Prod.fst rest
      · simp [hm, Ne.symm h₀, ih]
      · simp only [hm, if_false] at ih
        have : k ∈ k₀ :: List.map Prod.fst rest ↔ k ∈ List.map Prod.fst rest := by
          simp [Ne.symm h₀]
        simp [this, hm, ih]

theorem lookupA_isSome_iff_mem [DecidableEq κ] (m : List (κ × α)) (k : κ) :
    (lookupA m k).isSome ↔ k ∈ keysA m := by
  induction m with
  | nil => simp [lookupA, keysA]
  | cons p rest ih =>
    obtain ⟨k₀, a₀⟩ := p
    by_cases h₀ : k₀ = k
    · subst h₀
      simp [lookupA, keysA]
    · simp [lookupA, keysA, h₀, Ne.symm h₀, ih]

theorem lookupA_eq_none_of_not_mem [DecidableEq κ] (m : List (κ × α)) (k : κ)
    (h : k ∉ keysA m) : lookupA m k = none := by
  have := (lookupA_isSome_iff_mem m k).not.mpr h
  cases hm : lookupA m k with
  | none => rfl
  | some a => rw [hm] at this; simp at this

theorem lookupA_foldl_groupStep [DecidableEq κ]
    (key : ρ → κ) (init : ρ → α) (upd : α → ρ → α) :
    ∀ (rows : List ρ) (m : List (κ × α)) (k : κ),
      lookupA (rows.foldl (groupStep key init upd) m) k =
        match lookupA m k with
        | some a => some ((rows.filter (fun r => decide (key r = k))).foldl upd a)
        | none => groupAgg init upd (rows.filter (fun r => decide (key r = k))) := by
  intro rows
  induction rows with
  | nil =>
    intro m k
    cases h : lookupA m k <;> simp [h, groupAgg]
  | cons r rest ih =>
    intro m k
    simp only [List.foldl_cons, List.filter_cons]
    by_cases hk : key r = k
    · simp only [decide_eq_true hk, if_true]
      cases hm : lookupA m k with
      | some a =>
        rw [ih]
        have : lookupA (groupStep key init upd m r) k = some (upd a r) := by
          simp only [groupStep, hk, hm]
          exact lookupA_setAssoc_self m k (upd a r)
        rw [this]
        simp [groupAgg]
      | none =>
        rw [ih]
        have : lookupA (groupStep key init upd m r) k = some (upd (init r) r) := by
          simp only [groupStep, hk, hm]
          exact lookupA_setAssoc_self m k (upd (init r) r)
        rw [this]
        simp [groupAgg]
    · simp only [decide_eq_false hk, Bool.false_eq_true, if_false]
      rw [ih]
      have : lookupA (groupStep key init upd m r) k = lookupA m k := by
        simp only [groupStep]
        cases lookupA m (key r) <;>
          exact lookupA_setAssoc_ne m (key r) k _ hk
      rw [this]

/-- Per-group characterisation of the grouping loop: the entry stored under
key `k` is exactly the aggregation of the rows whose key is `k`. -/
theorem lookupA_groupFold [DecidableEq κ]
    (key : ρ → κ) (init : ρ → α) (upd : α → ρ → α) (rows : List ρ) (k : κ) :
    lookupA (groupFold key init upd rows) k =
      groupAgg init upd (rows.filter (fun r => decide (key r = k))) := by
  rw [groupFold, lookupA_foldl_groupStep]
  simp [lookupA]

theorem keysA_foldl_groupStep [DecidableEq κ]
    (key : ρ → κ) (init : ρ → α) (upd : α → ρ → α) :
    ∀ (rows : List ρ) (m : List (κ × α)),
      keysA (rows.foldl (groupStep key init upd) m) =
        keysA m ++ newKeys (keysA m) (rows.map key) := by
  intro rows
  induction rows with
  | nil => intro m; simp [newKeys]
  | cons r rest ih =>
    intro m
    simp only [List.foldl_cons, List.map_cons, newKeys]
    by_cases hk : key r ∈ keysA m
    · have hsome : (lookupA m (key r)).isSome := (lookupA_isSome_iff_mem m (key r)).mpr hk
      have hkeys : keysA (groupStep key init upd m r) = keysA m := by
        simp only [groupStep]
        cases hm : lookupA m (key r) with
        | none => rw [hm] at hsome; simp at hsome
        | some a => rw [keysA_setAssoc, if_pos hk]
      rw [ih, hkeys, if_pos hk]
    · have hnone : lookupA m (key r) = none := lookupA_eq_none_of_not_mem m (key r) hk
      have hkeys : keysA (groupStep key init upd m r) = keysA m ++ [key r] := by
        simp only [groupStep, hnone]
        rw [keysA_setAssoc, if_neg hk]
      rw [ih, hkeys, if_neg hk]
      simp

/-- The grouping map's keys are the distinct row keys in first-seen order. -/
theorem keysA_groupFold [DecidableEq κ]
    (key : ρ → κ) (init : ρ → α) (upd : α → ρ → α) (rows : List ρ) :
    keysA (groupFold key init upd rows) = newKeys [] (rows.map key) := by
  rw [groupFold, keysA_foldl_groupStep]
  simp [keysA]

theorem newKeys_subset [DecidableEq κ] :
    ∀ (l seen : List κ) (k : κ), k ∈ newKeys seen l → k ∈ l := by
  intro l
  induction l with
  | nil => intro seen k h; simp [newKeys] at h
  | cons k₀ rest ih =>
    intro seen k h
    simp only [newKeys] at h
    by_cases hs : k₀ ∈ seen
    · rw [if_pos hs] at h
      exact List.mem_cons_of_mem k₀ (ih seen k h)
    · rw [if_neg hs] at h
      rcases List.mem_cons.mp h with h₁ | h₁
      · exact h₁ ▸ List.mem_cons_self k₀ rest
      · exact List.mem_cons_of_mem k₀ (ih (seen ++ [k₀]) k h₁)

theorem lastMatch?_eq_some (p : ρ → Bool) :
    ∀ (l : List ρ) (r : ρ), lastMatch? p l = some r → r ∈ l ∧ p r = true := by
  intro l
  induction l with
  | nil => intro r h; simp [lastMatch?] at h
  | cons r₀ rest ih =>
    intro r h
    simp only [lastMatch?] at h
    cases hrest : lastMatch? p rest with
    | some r' =>
      rw [hrest] at h
      obtain ⟨hm, hp⟩ := ih r' hrest
      cases h
      exact ⟨List.mem_cons_of_mem r₀ hm, hp⟩
    | none =>
      rw [hrest] at h
      by_cases hp : p r₀
      · rw [if_pos hp] at h
        cases h
        exact ⟨List.mem_cons_self r₀ rest, hp⟩
      · rw [if_neg hp] at h
        cases h

theorem lastMatch?_eq_none (p : ρ → Bool) :
    ∀ l : List ρ, (∀ r ∈ l, p r = false) → lastMatch? p l = none := by
  intro l
  induction l with
  | nil => intro _; rfl
  | cons r₀ rest ih =>
    intro h
    simp only [lastMatch?]
    rw [ih (fun r hr => h r (List.mem_cons_of_mem r₀ hr))]
    simp [h r₀ (List.mem_cons_self r₀ rest)]

theorem lastMatch_isSome_of_mem (p : ρ → Bool) :
    ∀ (l : List ρ) (r : ρ), r ∈ l → p r = true → (lastMatch? p l).isSome := by
  intro l
  induction l with
  | nil => intro r h; simp at h
  | cons r₀ rest ih =>
    intro r hmem hp
    simp only [lastMatch?]
    cases hrest : lastMatch? p rest with
    | some r' => simp
    | none =>
      rcases List.mem_cons.mp hmem with h | h
      · subst h
        simp [hp]
      · have := ih r h hp
        rw [hrest] at this
        simp at this

/-! ## Characterisation of the answer-key index -/

theorem lookupA_getQuizAnswersFromRows (rows : List DbAnswerRow) (k : String) :
    lookupA (getQuizAnswersFromRows rows) k =
      match answerGroup rows k with
      | [] => none
      | h :: t => some ((h :: t).foldl updAnswerInfo (initAnswerInfo h)) := by
  rw [getQuizAnswersFromRows, lookupA_groupFold]
  rw [answerGroup] at *
  cases rows.filter (fun r => decide (itoa r.questionID = k)) with
  | nil => rfl
  | cons h t => simp [groupAgg]

theorem questionID_foldl_updAnswerInfo :
    ∀ (l : List DbAnswerRow) (a : QuestionAnswerInfo),
      (l.foldl updAnswerInfo a).questionID = a.questionID := by
  intro l
  induction l with
  | nil => intro a; rfl
  | cons r rest ih =>
    intro a
    rw [List.foldl_cons, ih]
    simp only [updAnswerInfo]
    by_cases hc : r.correta <;> simp [hc]

theorem assunto_foldl_updAnswerInfo :
    ∀ (l : List DbAnswerRow) (a : QuestionAnswerInfo),
      (l.foldl updAnswerInfo a).assunto = a.assunto := by
  intro l
  induction l with
  | nil => intro a; rfl
  | cons r rest ih =>
    intro a
    rw [List.foldl_cons, ih]
    simp only [updAnswerInfo]
    by_cases hc : r.correta <;> simp [hc]

theorem correctOptionText_foldl_updAnswerInfo :
    ∀ (l : List DbAnswerRow) (a : QuestionAnswerInfo),
      (l.foldl updAnswerInfo a).correctOptionText =
        match lastMatch? (fun r => r.correta) l with
        | some r => r.corpoResposta
        | none => a.correctOptionText := by
  intro l
  induction l with
  | nil => intro a; rfl
  | cons r rest ih =>
    intro a
    rw [List.foldl_cons, ih]
    simp only [lastMatch?]
    cases lastMatch? (fun r => r.correta) rest with
    | some r' => rfl
    | none =>
      simp only [updAnswerInfo]
      by_cases hc : r.correta <;> simp [hc]

theorem optionsMap_foldl_updAnswerInfo :
    ∀ (l : List DbAnswerRow) (a : QuestionAnswerInfo),
      (l.foldl updAnswerInfo a).optionsMap =
        l.foldl (fun om r => setAssoc om r.corpoResposta r.respostaID) a.optionsMap := by
  intro l
  induction l with
  | nil => intro a; rfl
  | cons r rest ih =>
    intro a
    rw [List.foldl_cons, ih, List.foldl_cons]
    simp only [updAnswerInfo]
    by_cases hc : r.correta <;> simp [hc]

theorem lookupA_foldl_setOption :
    ∀ (l : List DbAnswerRow) (om : List (String × Int)) (t : String),
      lookupA (l.foldl (fun om r => setAssoc om r.corpoResposta r.respostaID) om) t =
        match lastMatch? (fun r => decide (r.corpoResposta = t)) l with
        | some r => some r.respostaID
        | none => lookupA om t := by
  intro l
  induction l with
  | nil => intro om t; rfl
  | cons r rest ih =>
    intro om t
    rw [List.foldl_cons, ih]
    simp only [lastMatch?]
    cases lastMatch? (fun r => decide (r.corpoResposta = t)) rest with
    | some r' => rfl
    | none =>
      by_cases hc : r.corpoResposta = t
      · subst hc
        simp [lookupA_setAssoc_self]
      · simp [hc, lookupA_setAssoc_ne om r.corpoResposta t r.respostaID hc]

/-- Full characterisation of one answer-key entry: if key `k` maps to
`info`, the group of rows with string key `k` is non-empty, `info`'s
question id and subject come from the group's first row, the correct text
is the last `correta` row's text (the zero value `""` if none), and the
text→id map resolves a text to the last row with that text. -/
theorem answerInfo_characterisation (rows : List DbAnswerRow) (k : String)
    (info : QuestionAnswerInfo)
    (h : lookupA (getQuizAnswersFromRows rows) k = some info) :
    ∃ h₀ tl, answerGroup rows k = h₀ :: tl ∧ h₀ ∈ rows ∧
      itoa h₀.questionID = k ∧
      info.questionID = h₀.questionID ∧
      info.assunto = (match h₀.questionAssunto with
                      | some a => a
                      | none => "") ∧
      info.correctOptionText =
        (match lastMatch? (fun r => r.correta) (answerGroup rows k) with
         | some r => r.corpoResposta
         | none => "") ∧
      (∀ t, lookupA info.optionsMap t =
        (lastMatch? (fun r => decide (r.corpoResposta = t)) (answerGroup rows k)).map
          (fun r => r.respostaID)) := by
  rw [lookupA_getQuizAnswersFromRows] at h
  cases hg : answerGroup rows k with
  | nil => rw [hg] at h; cases h
  | cons h₀ tl =>
    rw [hg] at h
    have hinfo : info = (h₀ :: tl).foldl updAnswerInfo (initAnswerInfo h₀) :=
      (Option.some_inj.mp h).symm
    have hmem : h₀ ∈ answerGroup rows k := by rw [hg]; exact List.mem_cons_self h₀ tl
    have hmem' := List.mem_filter.mp hmem
    refine ⟨h₀, tl, rfl, hmem'.1, of_decide_eq_true hmem'.2, ?_, ?_, ?_, ?_⟩
    · rw [hinfo, questionID_foldl_updAnswerInfo]
      rfl
    · rw [hinfo, assunto_foldl_updAnswerInfo]
      rfl
    · rw [hinfo, correctOptionText_foldl_updAnswerInfo]
      cases lastMatch? (fun r => r.correta) (h₀ :: tl) <;> rfl
    · intro t
      rw [hinfo, optionsMap_foldl_updAnswerInfo, lookupA_foldl_setOption]
      cases lastMatch? (fun r => decide (r.corpoResposta = t)) (h₀ :: tl) <;> rfl

/-! ## Claim theorems -/

/-- C1: for every non-empty answer key and every submitted answer list,
`SubmitAnswers` succeeds (no not-found error) and returns
`score = 100 × correctCount / totalCount` with `totalCount` equal to the
number of questions in the key — independent of how many answers were
submitted; submitting zero answers yields score 0 and correct count 0
against the full key size. -/
theorem c1_score_formula (answerMap : List (String × QuestionAnswerInfo))
    (answers : List UserAnswer) (h : answerMap.length ≠ 0) :
    ∃ out, submitAnswersCore answerMap answers = some out ∧
      out.totalCount = answerMap.length ∧
      out.score = 100 * (out.correctCount : ℚ) / (out.totalCount : ℚ) ∧
      (answers = [] → out.correctCount = 0 ∧ out.score = 0) := by
  refine ⟨_, by rw [submitAnswersCore, if_neg h], rfl, ?_, ?_⟩
  · have hpos : 0 < answerMap.length := Nat.pos_of_ne_zero h
    simp only [computeScore, if_pos hpos]
    have : ((answerMap.length : ℚ)) ≠ 0 := by
      exact_mod_cast h
    field_simp
    ring
  · intro ha
    subst ha
    have hg : gradeAnswers answerMap [] = ⟨0, [], []⟩ := rfl
    constructor
    · simp [hg]
    · have hpos : 0 < answerMap.length := Nat.pos_of_ne_zero h
      simp [hg, computeScore, if_pos hpos]

theorem c1_score_formula_witness :
    ∃ out,
      submitAnswersCore
        [("1", { questionID := 1, assunto := "", correctOptionText := "A",
                 optionsMap := [("A", 10)] })] [] = some out ∧
      out.totalCount = 1 ∧
      out.score = 100 * (out.correctCount : ℚ) / (out.totalCount : ℚ) ∧
      ([] = ([] : List UserAnswer) → out.correctCount = 0 ∧ out.score = 0) := by
  have := c1_score_formula
    [("1", { questionID := 1, assunto := "", correctOptionText := "A",
             optionsMap := [("A", 10)] })] [] (by decide)
  simpa using this

theorem gradeStep_skip (m : List (String × QuestionAnswerInfo))
    (acc : GradeResult) (ua : UserAnswer) (h : gradedB m ua = false) :
    gradeStep m acc ua = acc := by
  rw [gradeStep]
  cases ha : atoi ua.questionID with
  | none => rfl
  | some q =>
    cases hl : lookupA m ua.questionID with
    | none => rfl
    | some info =>
      exfalso
      rw [gradedB, ha, hl] at h
      simp at h

theorem gradeStep_correctCount_le (m : List (String × QuestionAnswerInfo))
    (acc : GradeResult) (ua : UserAnswer) :
    (gradeStep m acc ua).correctCount ≤ acc.correctCount + 1 := by
  rw [gradeStep]
  cases atoi ua.questionID with
  | none => exact Nat.le_succ acc.correctCount
  | some q =>
    cases lookupA m ua.questionID with
    | none => exact Nat.le_succ acc.correctCount
    | some info =>
      by_cases hc : ua.selectedOption = info.correctOptionText <;> simp [hc]

theorem correctCount_foldl_le (m : List (String × QuestionAnswerInfo)) :
    ∀ (answers : List UserAnswer) (acc : GradeResult),
      (answers.foldl (gradeStep m) acc).correctCount ≤
        acc.correctCount + (answers.filter (gradedB m)).length := by
  intro answers
  induction answers with
  | nil => intro acc; simp
  | cons ua rest ih =>
    intro acc
    rw [List.foldl_cons]
    cases hg : gradedB m ua with
    | false =>
      rw [gradeStep_skip m acc ua hg]
      have := ih acc
      simpa [List.filter_cons, hg] using this
    | true =>
      have h1 := ih (gradeStep m acc ua)
      have h2 := gradeStep_correctCount_le m acc ua
      simp [List.filter_cons, hg]
      omega

theorem graded_token_mem_keys (m : List (String × QuestionAnswerInfo))
    (ua : UserAnswer) (h : gradedB m ua = true) : ua.questionID ∈ keysA m := by
  rw [gradedB, Bool.and_eq_true] at h
  exact (lookupA_isSome_iff_mem m ua.questionID).mp h.2

/-- C2 is false as stated: with an answer key of one question whose correct
option text is "A", submitting that correct answer twice yields
`correctCount = 2` against `totalCount = 1`, so the computed score is 200,
outside `[0, 100]`. -/
theorem c2_score_counterexample :
    (submitAnswersCore
        (getQuizAnswersFromRows
          [{ questionID := 1, questionAssunto := none, respostaID := 10,
             corpoResposta := "A", correta := true }])
        [{ questionID := "1", selectedOption := "A" },
         { questionID := "1", selectedOption := "A" }]).map
      (fun out => out.score) = some 200 ∧ ¬ ((200 : ℚ) ≤ 100) := by
  constructor
  · have h1 :
        (submitAnswersCore
          (getQuizAnswersFromRows
            [{ questionID := 1, questionAssunto := none, respostaID := 10,
               corpoResposta := "A", correta := true }])
          [{ questionID := "1", selectedOption := "A" },
           { questionID := "1", selectedOption := "A" }]).map
        (fun out => out.score) = some (computeScore 2 1) := rfl
    rw [h1, computeScore]
    norm_num
  · norm_num

/-- C2 (amended): the grading engine's score is always the exact value
`(correctCount / totalCount) × 100` and is always nonnegative, but it is
bounded by 100 only when the submitted answers carry pairwise-distinct
question-id tokens (duplicate answers for the same question are each
counted, so the correct count can exceed the key size). -/
theorem c2_amended_score_bounds (m : List (String × QuestionAnswerInfo))
    (answers : List UserAnswer) (out : SubmissionOutcome)
    (h : submitAnswersCore m answers = some out) :
    0 ≤ out.score ∧
    out.score = ((out.correctCount : ℚ) / (out.totalCount : ℚ)) * 100 ∧
    ((answers.map (fun ua => ua.questionID)).Nodup →
      out.correctCount ≤ out.totalCount ∧ out.score ≤ 100) := by
  rw [submitAnswersCore] at h
  by_cases hlen : m.length = 0
  · rw [if_pos hlen] at h
    cases h
  · rw [if_neg hlen] at h
    injection h with h
    subst h
    have hpos : 0 < m.length := Nat.pos_of_ne_zero hlen
    have hposq : (0 : ℚ) < (m.length : ℚ) := by exact_mod_cast hpos
    simp only [computeScore, if_pos hpos]
    refine ⟨by positivity, by trivial, ?_⟩
    intro hnodup
    have hc : (gradeAnswers m answers).correctCount ≤
        (answers.filter (gradedB m)).length := by
      have := correctCount_foldl_le m answers ⟨0, [], []⟩
      simpa [gradeAnswers] using this
    have hsub : ((answers.filter (gradedB m)).map (fun ua => ua.questionID)).Sublist
        (answers.map (fun ua => ua.questionID)) :=
      (List.filter_sublist answers).map (fun ua => ua.questionID)
    have hnd : ((answers.filter (gradedB m)).map (fun ua => ua.questionID)).Nodup :=
      hnodup.sublist hsub
    have hss : ((answers.filter (gradedB m)).map (fun ua => ua.questionID)) ⊆ keysA m := by
      intro x hx
      obtain ⟨ua, hua, rfl⟩ := List.mem_map.mp hx
      exact graded_token_mem_keys m ua (List.mem_filter.mp hua).2
    have hlenle : ((answers.filter (gradedB m)).map (fun ua => ua.questionID)).length ≤
        (keysA m).length :=
      (List.subperm_of_subset hnd hss).length_le
    have hkeys : (keysA m).length = m.length := by
      simp [keysA]
    have hct : (gradeAnswers m answers).correctCount ≤ m.length := by
      rw [List.length_map] at hlenle
      omega
    refine ⟨hct, ?_⟩
    have hcq : ((gradeAnswers m answers).correctCount : ℚ) ≤ (m.length : ℚ) := by
      exact_mod_cast hct
    have hdiv : ((gradeAnswers m answers).correctCount : ℚ) / (m.length : ℚ) ≤ 1 :=
      (div_le_one hposq).mpr hcq
    nlinarith

theorem c2_amended_score_bounds_witness :
    submitAnswersCore
      [("1", { questionID := 1, assunto := "", correctOptionText := "A",
               optionsMap := [("A", 10)] })]
      [{ questionID := "1", selectedOption := "A" }] =
      some { score := computeScore 1 1, correctCount := 1, totalCount := 1,
             respostasDadas := [{ perguntaID := 1, respostaID := some 10,
                                  corretaNaSubmissao := some true }],
             dificuldades := [] } ∧
    (0 ≤ ({ score := computeScore 1 1, correctCount := 1, totalCount := 1,
            respostasDadas := [{ perguntaID := 1, respostaID := some 10,
                                 corretaNaSubmissao := some true }],
            dificuldades := [] } : SubmissionOutcome).score ∧
     ({ score := computeScore 1 1, correctCount := 1, totalCount := 1,
        respostasDadas := [{ perguntaID := 1, respostaID := some 10,
                             corretaNaSubmissao := some true }],
        dificuldades := [] } : SubmissionOutcome).score =
       ((({ score := computeScore 1 1, correctCount := 1, totalCount := 1,
            respostasDadas := [{ perguntaID := 1, respostaID := some 10,
                                 corretaNaSubmissao := some true }],
            dificuldades := [] } : SubmissionOutcome).correctCount : ℚ) /
        (({ score := computeScore 1 1, correctCount := 1, totalCount := 1,
            respostasDadas := [{ perguntaID := 1, respostaID := some 10,
                                 corretaNaSubmissao := some true }],
            dificuldades := [] } : SubmissionOutcome).totalCount : ℚ)) * 100 ∧
     (([{ questionID := "1", selectedOption := "A" }].map
         (fun ua : UserAnswer => ua.questionID)).Nodup →
       ({ score := computeScore 1 1, correctCount := 1, totalCount := 1,
          respostasDadas := [{ perguntaID := 1, respostaID := some 10,
                               corretaNaSubmissao := some true }],
          dificuldades := [] } : SubmissionOutcome).correctCount ≤
         ({ score := computeScore 1 1, correctCount := 1, totalCount := 1,
            respostasDadas := [{ perguntaID := 1, respostaID := some 10,
                                 corretaNaSubmissao := some true }],
            dificuldades := [] } : SubmissionOutcome).totalCount ∧
       ({ score := computeScore 1 1, correctCount := 1, totalCount := 1,
          respostasDadas := [{ perguntaID := 1, respostaID := some 10,
                               corretaNaSubmissao := some true }],
          dificuldades := [] } : SubmissionOutcome).score ≤ 100)) := by
  have h : submitAnswersCore
      [("1", { questionID := 1, assunto := "", correctOptionText := "A",
               optionsMap := [("A", 10)] })]
      [{ questionID := "1", selectedOption := "A" }] =
      some { score := computeScore 1 1, correctCount := 1, totalCount := 1,
             respostasDadas := [{ perguntaID := 1, respostaID := some 10,
                                  corretaNaSubmissao := some true }],
             dificuldades := [] } := rfl
  exact ⟨h, c2_amended_score_bounds _ _ _ h⟩

/-- Membership in a question's row group. -/
theorem answerGroup_mem (rows : List DbAnswerRow) (k : String) (r : DbAnswerRow) :
    r ∈ answerGroup rows k ↔ r ∈ rows ∧ itoa r.questionID = k := by
  rw [answerGroup, List.mem_filter]
  constructor
  · exact fun ⟨h1, h2⟩ => ⟨h1, of_decide_eq_true h2⟩
  · exact fun ⟨h1, h2⟩ => ⟨h1, decide_eq_true h2⟩

theorem firstSome_eq_none (f : ρ → Option β) :
    ∀ l : List ρ, (∀ r ∈ l, f r = none) → firstSome f l = none := by
  intro l
  induction l with
  | nil => intro _; rfl
  | cons r rest ih =>
    intro h
    rw [firstSome, h r (List.mem_cons_self r rest)]
    exact ih (fun r' hr' => h r' (List.mem_cons_of_mem r hr'))

/-- A key present in the answer map always parses back to the stored
question id: keys are canonical decimal strings produced by `Itoa`. -/
theorem atoi_key_of_lookup (rows : List DbAnswerRow) (k : String)
    (info : QuestionAnswerInfo)
    (h : lookupA (getQuizAnswersFromRows rows) k = some info) :
    atoi k = some info.questionID := by
  obtain ⟨h₀, tl, hg, hmem, hitoa, hqid, _, _, _⟩ :=
    answerInfo_characterisation rows k info h
  rw [← hitoa, atoi_itoa, hqid]

/-- C4 is false as stated: with question 7 in the answer key, the submitted
token "07" parses to the integer 7 and question 7 belongs to the key, yet
the answer is skipped (no draft, no counted answer) because the key lookup
uses the raw token string and the map's key is the canonical "7". -/
theorem c4_token_counterexample :
    atoi "07" = some 7 ∧
    lookupA
      (getQuizAnswersFromRows
        [{ questionID := 7, questionAssunto := none, respostaID := 70,
           corpoResposta := "A", correta := true }]) "7" =
      some { questionID := 7, assunto := "", correctOptionText := "A",
             optionsMap := [("A", 70)] } ∧
    gradeAnswers
      (getQuizAnswersFromRows
        [{ questionID := 7, questionAssunto := none, respostaID := 70,
           corpoResposta := "A", correta := true }])
      [{ questionID := "07", selectedOption := "A" }] =
      { correctCount := 0, respostasDadas := [], dificuldades := [] } := by
  refine ⟨by decide, by decide, by decide⟩

/-- C4 (amended): an answer is graded if and only if its raw question-id
token is a key of the answer map, that is, the canonical decimal string of
a key question's id (in which case the integer parse necessarily
succeeds); a skipped answer leaves the whole accumulator unchanged, and a
graded one contributes exactly the draft and counter updates of the loop
body. -/
theorem c4_amended_grading_condition (rows : List DbAnswerRow)
    (acc : GradeResult) (ua : UserAnswer) :
    (ua.questionID ∉ keysA (getQuizAnswersFromRows rows) →
      gradeStep (getQuizAnswersFromRows rows) acc ua = acc) ∧
    (ua.questionID ∈ keysA (getQuizAnswersFromRows rows) →
      ∃ info, lookupA (getQuizAnswersFromRows rows) ua.questionID = some info ∧
        atoi ua.questionID = some info.questionID ∧
        gradeStep (getQuizAnswersFromRows rows) acc ua =
          (if ua.selectedOption = info.correctOptionText then
            { correctCount := acc.correctCount + 1
              respostasDadas := acc.respostasDadas ++
                [{ perguntaID := info.questionID
                   respostaID := lookupA info.optionsMap ua.selectedOption
                   corretaNaSubmissao := some true }]
              dificuldades := acc.dificuldades }
          else
            { correctCount := acc.correctCount
              respostasDadas := acc.respostasDadas ++
                [{ perguntaID := info.questionID
                   respostaID := lookupA info.optionsMap ua.selectedOption
                   corretaNaSubmissao := some false }]
              dificuldades := acc.dificuldades ++
                [{ assunto := some info.assunto }] })) := by
  constructor
  · intro hnot
    have hnone : lookupA (getQuizAnswersFromRows rows) ua.questionID = none :=
      lookupA_eq_none_of_not_mem _ _ hnot
    rw [gradeStep]
    cases atoi ua.questionID with
    | none => rfl
    | some q => rw [hnone]
  · intro hmem
    have hsome : (lookupA (getQuizAnswersFromRows rows) ua.questionID).isSome :=
      (lookupA_isSome_iff_mem _ _).mpr hmem
    cases hl : lookupA (getQuizAnswersFromRows rows) ua.questionID with
    | none => rw [hl] at hsome; simp at hsome
    | some info =>
      have hatoi := atoi_key_of_lookup rows ua.questionID info hl
      refine ⟨info, rfl, hatoi, ?_⟩
      rw [gradeStep, hatoi, hl]
      by_cases hc : ua.selectedOption = info.correctOptionText
      · simp [hc]
      · simp [hc]

theorem c4_amended_grading_condition_witness :
    ("7" ∈ keysA
      (getQuizAnswersFromRows
        [{ questionID := 7, questionAssunto := none, respostaID := 70,
           corpoResposta := "A", correta := true }])) ∧
    (∃ info,
      lookupA
        (getQuizAnswersFromRows
          [{ questionID := 7, questionAssunto := none, respostaID := 70,
             corpoResposta := "A", correta := true }]) "7" = some info ∧
      atoi "7" = some info.questionID ∧
      gradeStep
        (getQuizAnswersFromRows
          [{ questionID := 7, questionAssunto := none, respostaID := 70,
             corpoResposta := "A", correta := true }])
        { correctCount := 0, respostasDadas := [], dificuldades := [] }
        { questionID := "7", selectedOption := "A" } =
        (if ("A" : String) = info.correctOptionText then
          { correctCount := 0 + 1
            respostasDadas := [] ++
              [{ perguntaID := info.questionID
                 respostaID := lookupA info.optionsMap "A"
                 corretaNaSubmissao := some true }]
            dificuldades := [] }
        else
          { correctCount := 0
            respostasDadas := [] ++
              [{ perguntaID := info.questionID
                 respostaID := lookupA info.optionsMap "A"
                 corretaNaSubmissao := some false }]
            dificuldades := [] ++ [{ assunto := some info.assunto }] })) :=
  ⟨by decide,
    (c4_amended_grading_condition
      [{ questionID := 7, questionAssunto := none, respostaID := 70,
         corpoResposta := "A", correta := true }]
      { correctCount := 0, respostasDadas := [], dificuldades := [] }
      { questionID := "7", selectedOption := "A" }).2 (by decide)⟩

/-- C10: for a key question none of whose rows has the correctness boolean
set, the entry's correct-option text is the zero value `""`; consequently
an answer for that question whose selected option text is the empty string
is graded as correct (string equality against `""` holds). -/
theorem c10_no_correct_row (rows : List DbAnswerRow) (k : String)
    (info : QuestionAnswerInfo)
    (h : lookupA (getQuizAnswersFromRows rows) k = some info)
    (hnone : ∀ r ∈ rows, itoa r.questionID = k → r.correta = false) :
    info.correctOptionText = "" ∧
    (gradeAnswers (getQuizAnswersFromRows rows)
        [{ questionID := k, selectedOption := "" }]).correctCount = 1 := by
  obtain ⟨h₀, tl, hg, hmem, hitoa, hqid, hassunto, hcorrect, hopts⟩ :=
    answerInfo_characterisation rows k info h
  have hlm : lastMatch? (fun r => r.correta) (answerGroup rows k) = none := by
    apply lastMatch?_eq_none
    intro r hr
    obtain ⟨hr1, hr2⟩ := (answerGroup_mem rows k r).mp hr
    exact hnone r hr1 hr2
  have hct : info.correctOptionText = "" := by
    rw [hcorrect, hlm]
  refine ⟨hct, ?_⟩
  have hatoi := atoi_key_of_lookup rows k info h
  rw [gradeAnswers, List.foldl_cons, List.foldl_nil, gradeStep]
  rw [show ({ questionID := k, selectedOption := "" } : UserAnswer).questionID = k from rfl,
      hatoi, h]
  simp [hct]

theorem c10_no_correct_row_witness :
    lookupA
      (getQuizAnswersFromRows
        [{ questionID := 5, questionAssunto := none, respostaID := 50,
           corpoResposta := "A", correta := false }]) "5" =
      some { questionID := 5, assunto := "", correctOptionText := "",
             optionsMap := [("A", 50)] } ∧
    (∀ r ∈ ([{ questionID := 5, questionAssunto := none, respostaID := 50,
               corpoResposta := "A", correta := false }] : List DbAnswerRow),
      itoa r.questionID = "5" → r.correta = false) ∧
    (({ questionID := 5, assunto := "", correctOptionText := "",
        optionsMap := [("A", 50)] } : QuestionAnswerInfo).correctOptionText = "" ∧
      (gradeAnswers
        (getQuizAnswersFromRows
          [{ questionID := 5, questionAssunto := none, respostaID := 50,
             corpoResposta := "A", correta := false }])
        [{ questionID := "5", selectedOption := "" }]).correctCount = 1) :=
  ⟨by decide, by decide,
    c10_no_correct_row
      [{ questionID := 5, questionAssunto := none, respostaID := 50,
         corpoResposta := "A", correta := false }] "5"
      { questionID := 5, assunto := "", correctOptionText := "",
        optionsMap := [("A", 50)] } (by decide) (by decide)⟩

/-- C8: a graded answer whose selected text matches no option of its
question in the text→id map yields a draft with a null resolved option id,
is still recorded, still counted by exact text comparison against the
stored correct text, and never by itself fails the submission (the grading
loop is total and `SubmitAnswers` only errors on an empty key). -/
theorem c8_unresolved_option (rows : List DbAnswerRow) (acc : GradeResult)
    (ua : UserAnswer) (info : QuestionAnswerInfo)
    (h : lookupA (getQuizAnswersFromRows rows) ua.questionID = some info)
    (hopt : lookupA info.optionsMap ua.selectedOption = none) :
    (gradeStep (getQuizAnswersFromRows rows) acc ua).respostasDadas =
      acc.respostasDadas ++
        [{ perguntaID := info.questionID
           respostaID := none
           corretaNaSubmissao := some (decide (ua.selectedOption = info.correctOptionText)) }] ∧
    (gradeStep (getQuizAnswersFromRows rows) acc ua).correctCount =
      (if ua.selectedOption = info.correctOptionText then acc.correctCount + 1
       else acc.correctCount) ∧
    (∀ answers : List UserAnswer, (getQuizAnswersFromRows rows).length ≠ 0 →
      (submitAnswersCore (getQuizAnswersFromRows rows) answers).isSome) := by
  have hatoi := atoi_key_of_lookup rows ua.questionID info h
  refine ⟨?_, ?_, ?_⟩
  · rw [gradeStep, hatoi, h]
    simp only [hopt]
    by_cases hc : ua.selectedOption = info.correctOptionText <;>
      simp [hc]
  · rw [gradeStep, hatoi, h]
    by_cases hc : ua.selectedOption = info.correctOptionText <;>
      simp [hc]
  · intro answers hne
    rw [submitAnswersCore, if_neg hne]
    rfl

theorem c8_unresolved_option_witness :
    lookupA
      (getQuizAnswersFromRows
        [{ questionID := 7, questionAssunto := none, respostaID := 70,
           corpoResposta := "A", correta := true }]) "7" =
      some { questionID := 7, assunto := "", correctOptionText := "A",
             optionsMap := [("A", 70)] } ∧
    lookupA ([("A", 70)] : List (String × Int)) "Z" = none ∧
    ((gradeStep
        (getQuizAnswersFromRows
          [{ questionID := 7, questionAssunto := none, respostaID := 70,
             corpoResposta := "A", correta := true }])
        { correctCount := 0, respostasDadas := [], dificuldades := [] }
        { questionID := "7", selectedOption := "Z" }).respostasDadas =
      [] ++ [{ perguntaID := 7, respostaID := none,
               corretaNaSubmissao := some (decide (("Z" : String) = "A")) }] ∧
     (gradeStep
        (getQuizAnswersFromRows
          [{ questionID := 7, questionAssunto := none, respostaID := 70,
             corpoResposta := "A", correta := true }])
        { correctCount := 0, respostasDadas := [], dificuldades := [] }
        { questionID := "7", selectedOption := "Z" }).correctCount =
      (if ("Z" : String) = "A" then 0 + 1 else 0) ∧
     (∀ answers : List UserAnswer,
       (getQuizAnswersFromRows
         [{ questionID := 7, questionAssunto := none, respostaID := 70,
            corpoResposta := "A", correta := true }]).length ≠ 0 →
       (submitAnswersCore
         (getQuizAnswersFromRows
           [{ questionID := 7, questionAssunto := none, respostaID := 70,
              corpoResposta := "A", correta := true }]) answers).isSome)) :=
  ⟨by decide, by decide,
    c8_unresolved_option
      [{ questionID := 7, questionAssunto := none, respostaID := 70,
         corpoResposta := "A", correta := true }]
      { correctCount := 0, respostasDadas := [], dificuldades := [] }
      { questionID := "7", selectedOption := "Z" }
      { questionID := 7, assunto := "", correctOptionText := "A",
        optionsMap := [("A", 70)] } (by decide) (by decide)⟩

/-- C7 is false as stated: an incorrect graded answer on a question whose
subject is NULL still creates a difficulty entry, and the entry carries a
non-null pointer to the sentinel empty string rather than an absent
value. -/
theorem c7_difficulty_counterexample :
    (gradeAnswers
      (getQuizAnswersFromRows
        [{ questionID := 3, questionAssunto := none, respostaID := 30,
           corpoResposta := "A", correta := true }])
      [{ questionID := "3", selectedOption := "B" }]).dificuldades =
      [{ assunto := some "" }] := by decide

/-- C7 (amended): the grading loop appends a difficulty entry exactly once
per incorrect graded answer, unconditionally on the subject; the entry's
subject is always the non-null `some s`, where `s` is the key's subject
string — the empty string when every row of the question has a NULL
subject. -/
theorem c7_amended_difficulty (rows : List DbAnswerRow) (acc : GradeResult)
    (ua : UserAnswer) (info : QuestionAnswerInfo)
    (h : lookupA (getQuizAnswersFromRows rows) ua.questionID = some info) :
    (ua.selectedOption = info.correctOptionText →
      (gradeStep (getQuizAnswersFromRows rows) acc ua).dificuldades =
        acc.dificuldades) ∧
    (ua.selectedOption ≠ info.correctOptionText →
      (gradeStep (getQuizAnswersFromRows rows) acc ua).dificuldades =
        acc.dificuldades ++ [{ assunto := some info.assunto }]) ∧
    ((∀ r ∈ rows, itoa r.questionID = ua.questionID → r.questionAssunto = none) →
      info.assunto = "") := by
  have hatoi := atoi_key_of_lookup rows ua.questionID info h
  refine ⟨?_, ?_, ?_⟩
  · intro hc
    rw [gradeStep, hatoi, h]
    simp [hc]
  · intro hc
    rw [gradeStep, hatoi, h]
    simp [hc]
  · intro hnone
    obtain ⟨h₀, tl, hg, hmem, hitoa, hqid, hassunto, _, _⟩ :=
      answerInfo_characterisation rows ua.questionID info h
    rw [hassunto, hnone h₀ hmem hitoa]

theorem c7_amended_difficulty_witness :
    lookupA
      (getQuizAnswersFromRows
        [{ questionID := 3, questionAssunto := none, respostaID := 30,
           corpoResposta := "A", correta := true }]) "3" =
      some { questionID := 3, assunto := "", correctOptionText := "A",
             optionsMap := [("A", 30)] } ∧
    (("B" : String) ≠ "A") ∧
    (gradeStep
        (getQuizAnswersFromRows
          [{ questionID := 3, questionAssunto := none, respostaID := 30,
             corpoResposta := "A", correta := true }])
        { correctCount := 0, respostasDadas := [], dificuldades := [] }
        { questionID := "3", selectedOption := "B" }).dificuldades =
      [] ++ [{ assunto := some "" }] ∧
    (∀ r ∈ ([{ questionID := 3, questionAssunto := none, respostaID := 30,
               corpoResposta := "A", correta := true }] : List DbAnswerRow),
      itoa r.questionID = "3" → r.questionAssunto = none) ∧
    ({ questionID := 3, assunto := "", correctOptionText := "A",
       optionsMap := [("A", 30)] } : QuestionAnswerInfo).assunto = "" := by
  have hmain := c7_amended_difficulty
    [{ questionID := 3, questionAssunto := none, respostaID := 30,
       corpoResposta := "A", correta := true }]
    { correctCount := 0, respostasDadas := [], dificuldades := [] }
    { questionID := "3", selectedOption := "B" }
    { questionID := 3, assunto := "", correctOptionText := "A",
      optionsMap := [("A", 30)] } (by decide)
  exact ⟨by decide, by decide, hmain.2.1 (by decide), by decide,
    hmain.2.2 (by decide)⟩

/-- C5: the answer-key index groups the flat rows by question id and, per
question: the subject is the first non-null subject among the question's
rows (with `""` standing for "all null", as required by the schema's
functional dependency of the subject on the question id, taken as the
hypothesis `hfd`); the text→id mapping resolves each text to the LAST row
carrying that text; and whenever a last `correta` row exists, the correct
option text is that row's text. -/
theorem c5_key_grouping (rows : List DbAnswerRow) (k : String)
    (info : QuestionAnswerInfo)
    (hfd : ∀ r ∈ rows, ∀ r' ∈ rows, r.questionID = r'.questionID →
      r.questionAssunto = r'.questionAssunto)
    (h : lookupA (getQuizAnswersFromRows rows) k = some info) :
    info.assunto =
      ((firstSome (fun r => r.questionAssunto) (answerGroup rows k)).getD "") ∧
    (∀ t, lookupA info.optionsMap t =
      (lastMatch? (fun r => decide (r.corpoResposta = t)) (answerGroup rows k)).map
        (fun r => r.respostaID)) ∧
    (∀ r₀, lastMatch? (fun r => r.correta) (answerGroup rows k) = some r₀ →
      info.correctOptionText = r₀.corpoResposta) := by
  obtain ⟨h₀, tl, hg, hmem, hitoa, hqid, hassunto, hcorrect, hopts⟩ :=
    answerInfo_characterisation rows k info h
  refine ⟨?_, hopts, ?_⟩
  · have hgroup : ∀ r ∈ answerGroup rows k, r.questionAssunto = h₀.questionAssunto := by
      intro r hr
      obtain ⟨hr1, hr2⟩ := (answerGroup_mem rows k r).mp hr
      exact hfd r hr1 h₀ hmem (itoa_injective (hr2.trans hitoa.symm))
    rw [hg] at hgroup ⊢
    cases ha : h₀.questionAssunto with
    | some a =>
      rw [hassunto, ha]
      simp [firstSome, ha]
    | none =>
      rw [hassunto, ha]
      have : firstSome (fun r => r.questionAssunto) (h₀ :: tl) = none := by
        apply firstSome_eq_none
        intro r hr
        rw [hgroup r hr, ha]
      simp [this]
  · intro r₀ hr₀
    rw [hcorrect, hr₀]

theorem c5_key_grouping_witness :
    (∀ r ∈ ([DbAnswerRow.mk 2 (some "X") 20 "A" false,
             DbAnswerRow.mk 2 (some "X") 21 "A" true] : List DbAnswerRow),
      ∀ r' ∈ ([DbAnswerRow.mk 2 (some "X") 20 "A" false,
               DbAnswerRow.mk 2 (some "X") 21 "A" true] : List DbAnswerRow),
        r.questionID = r'.questionID → r.questionAssunto = r'.questionAssunto) ∧
    lookupA
      (getQuizAnswersFromRows
        [DbAnswerRow.mk 2 (some "X") 20 "A" false,
         DbAnswerRow.mk 2 (some "X") 21 "A" true]) "2" =
      some (QuestionAnswerInfo.mk 2 "X" "A" [("A", 21)]) ∧
    ((QuestionAnswerInfo.mk 2 "X" "A" [("A", 21)]).assunto =
      ((firstSome (fun r => r.questionAssunto)
        (answerGroup
          [DbAnswerRow.mk 2 (some "X") 20 "A" false,
           DbAnswerRow.mk 2 (some "X") 21 "A" true] "2")).getD "") ∧
     (∀ t, lookupA (QuestionAnswerInfo.mk 2 "X" "A" [("A", 21)]).optionsMap t =
        (lastMatch? (fun r => decide (r.corpoResposta = t))
          (answerGroup
            [DbAnswerRow.mk 2 (some "X") 20 "A" false,
             DbAnswerRow.mk 2 (some "X") 21 "A" true] "2")).map
          (fun r => r.respostaID)) ∧
     (∀ r₀, lastMatch? (fun r => r.correta)
        (answerGroup
          [DbAnswerRow.mk 2 (some "X") 20 "A" false,
           DbAnswerRow.mk 2 (some "X") 21 "A" true] "2") = some r₀ →
        (QuestionAnswerInfo.mk 2 "X" "A" [("A", 21)]).correctOptionText =
          r₀.corpoResposta)) :=
  ⟨by decide, by decide,
    c5_key_grouping
      [DbAnswerRow.mk 2 (some "X") 20 "A" false,
       DbAnswerRow.mk 2 (some "X") 21 "A" true] "2"
      (QuestionAnswerInfo.mk 2 "X" "A" [("A", 21)]) (by decide) (by decide)⟩

theorem txInsertDadas_ok (fails : DbOp → Bool) (subID : Int) :
    ∀ (l : List RespostaDada) (i : Nat) (st st' : DBState),
      txInsertDadas fails subID l i st = .ok st' →
      st' = { st with respostasDadas :=
        st.respostasDadas ++ l.map (fun d => (subID, d)) } := by
  intro l
  induction l with
  | nil =>
    intro i st st' h
    rw [txInsertDadas] at h
    cases h
    simp
  | cons d rest ih =>
    intro i st st' h
    rw [txInsertDadas] at h
    by_cases hf : fails (.insertRespostaDada i)
    · rw [if_pos hf] at h
      cases h
    · rw [if_neg hf] at h
      have := ih (i + 1) _ st' h
      rw [this]
      simp

theorem txInsertDadas_error (fails : DbOp → Bool) (subID : Int) :
    ∀ (l : List RespostaDada) (i : Nat) (st : DBState) (e : DbOp),
      txInsertDadas fails subID l i st = .error e → fails e = true := by
  intro l
  induction l with
  | nil =>
    intro i st e h
    rw [txInsertDadas] at h
    cases h
  | cons d rest ih =>
    intro i st e h
    rw [txInsertDadas] at h
    by_cases hf : fails (.insertRespostaDada i)
    · rw [if_pos hf] at h
      cases h
      exact hf
    · rw [if_neg hf] at h
      exact ih (i + 1) _ e h

theorem txInsertDifs_ok (fails : DbOp → Bool) (subID : Int) :
    ∀ (l : List Dificuldade) (i : Nat) (st st' : DBState),
      txInsertDifs fails subID l i st = .ok st' →
      st' = { st with dificuldades :=
        st.dificuldades ++ l.map (fun d => (subID, d)) } := by
  intro l
  induction l with
  | nil =>
    intro i st st' h
    rw [txInsertDifs] at h
    cases h
    simp
  | cons d rest ih =>
    intro i st st' h
    rw [txInsertDifs] at h
    by_cases hf : fails (.insertDificuldade i)
    · rw [if_pos hf] at h
      cases h
    · rw [if_neg hf] at h
      have := ih (i + 1) _ st' h
      rw [this]
      simp

theorem txInsertDifs_error (fails : DbOp → Bool) (subID : Int) :
    ∀ (l : List Dificuldade) (i : Nat) (st : DBState) (e : DbOp),
      txInsertDifs fails subID l i st = .error e → fails e = true := by
  intro l
  induction l with
  | nil =>
    intro i st e h
    rw [txInsertDifs] at h
    cases h
  | cons d rest ih =>
    intro i st e h
    rw [txInsertDifs] at h
    by_cases hf : fails (.insertDificuldade i)
    · rw [if_pos hf] at h
      cases h
      exact hf
    · rw [if_neg hf] at h
      exact ih (i + 1) _ e h

theorem txBody_error (fails : DbOp → Bool) (st : DBState) (sub : Submissao)
    (dadas : List RespostaDada) (difs : List Dificuldade) (e : DbOp)
    (h : txBody fails st sub dadas difs = .error e) : fails e = true := by
  rw [txBody] at h
  by_cases hf : fails .insertSubmissao
  · rw [if_pos hf] at h
    cases h
    exact hf
  · rw [if_neg hf] at h
    cases hd : txInsertDadas fails st.nextSubmissaoID dadas 0
        { st with submissoes := st.submissoes ++ [{ sub with id := st.nextSubmissaoID }]
                  nextSubmissaoID := st.nextSubmissaoID + 1 } with
    | error e1 =>
      rw [hd] at h
      have h2 : (Except.error e1 : Except DbOp (DBState × Submissao)) =
          Except.error e := h
      cases h2
      exact txInsertDadas_error fails st.nextSubmissaoID dadas 0 _ e hd
    | ok st2 =>
      rw [hd] at h
      have h2 : (match txInsertDifs fails st.nextSubmissaoID difs 0 st2 with
          | Except.error e => Except.error e
          | Except.ok st3 =>
            Except.ok (st3, { sub with id := st.nextSubmissaoID })) =
          Except.error e := h
      cases hdf : txInsertDifs fails st.nextSubmissaoID difs 0 st2 with
      | error e1 =>
        rw [hdf] at h2
        have h3 : (Except.error e1 : Except DbOp (DBState × Submissao)) =
            Except.error e := h2
        cases h3
        exact txInsertDifs_error fails st.nextSubmissaoID difs 0 st2 e hdf
      | ok st3 =>
        rw [hdf] at h2
        have h3 : (Except.ok (st3, { sub with id := st.nextSubmissaoID }) :
            Except DbOp (DBState × Submissao)) = Except.error e := h2
        cases h3

theorem txBody_ok (fails : DbOp → Bool) (st : DBState) (sub : Submissao)
    (dadas : List RespostaDada) (difs : List Dificuldade) (st' : DBState)
    (savedSub : Submissao)
    (h : txBody fails st sub dadas difs = .ok (st', savedSub)) :
    savedSub = { sub with id := st.nextSubmissaoID } ∧
    st' = { submissoes := st.submissoes ++ [savedSub]
            respostasDadas := st.respostasDadas ++
              dadas.map (fun d => (savedSub.id, d))
            dificuldades := st.dificuldades ++
              difs.map (fun d => (savedSub.id, d))
            nextSubmissaoID := st.nextSubmissaoID + 1 } := by
  rw [txBody] at h
  by_cases hf : fails .insertSubmissao
  · rw [if_pos hf] at h
    cases h
  · rw [if_neg hf] at h
    cases hd : txInsertDadas fails st.nextSubmissaoID dadas 0
        { st with submissoes := st.submissoes ++ [{ sub with id := st.nextSubmissaoID }]
                  nextSubmissaoID := st.nextSubmissaoID + 1 } with
    | error e1 =>
      rw [hd] at h
      have h2 : (Except.error e1 : Except DbOp (DBState × Submissao)) =
          Except.ok (st', savedSub) := h
      cases h2
    | ok st2 =>
      rw [hd] at h
      have h2 : (match txInsertDifs fails st.nextSubmissaoID difs 0 st2 with
          | Except.error e => Except.error e
          | Except.ok st3 =>
            Except.ok (st3, { sub with id := st.nextSubmissaoID })) =
          Except.ok (st', savedSub) := h
      cases hdf : txInsertDifs fails st.nextSubmissaoID difs 0 st2 with
      | error e1 =>
        rw [hdf] at h2
        have h3 : (Except.error e1 : Except DbOp (DBState × Submissao)) =
            Except.ok (st', savedSub) := h2
        cases h3
      | ok st3 =>
        rw [hdf] at h2
        have h3 : (Except.ok (st3, { sub with id := st.nextSubmissaoID }) :
            Except DbOp (DBState × Submissao)) = Except.ok (st', savedSub) := h2
        have h4 : (st3, ({ sub with id := st.nextSubmissaoID } : Submissao)) =
            (st', savedSub) := by injection h3
        have h5 : st3 = st' := congrArg Prod.fst h4
        have h6 : ({ sub with id := st.nextSubmissaoID } : Submissao) = savedSub :=
          congrArg Prod.snd h4
        refine ⟨h6.symm, ?_⟩
        have hst2 := txInsertDadas_ok fails st.nextSubmissaoID dadas 0 _ st2 hd
        have hst3 := txInsertDifs_ok fails st.nextSubmissaoID difs 0 st2 st3 hdf
        rw [← h5, hst3, hst2, ← h6]

/-- C3: `SaveSubmissionStats` persists the submission, all its given-answer
rows and all its difficulty rows as one all-or-nothing unit: whenever any
issued database operation fails, the caller-visible state is exactly the
initial state (the deferred rollback discards the transaction) and the
failing operation's error is the one surfaced; when nothing fails, the
operation succeeds, the returned Submission carries the generated
identifier, and the final state holds exactly the three kinds of rows
tagged with that identifier. -/
theorem c3_save_all_or_nothing (fails : DbOp → Bool) (st : DBState)
    (sub : Submissao) (dadas : List RespostaDada) (difs : List Dificuldade) :
    (∀ e, (saveSubmissionStats fails st sub dadas difs).2 = .error e →
      (saveSubmissionStats fails st sub dadas difs).1 = st ∧ fails e = true) ∧
    (∀ savedSub, (saveSubmissionStats fails st sub dadas difs).2 = .ok savedSub →
      savedSub = { sub with id := st.nextSubmissaoID } ∧
      (saveSubmissionStats fails st sub dadas difs).1 =
        { submissoes := st.submissoes ++ [savedSub]
          respostasDadas := st.respostasDadas ++
            dadas.map (fun d => (savedSub.id, d))
          dificuldades := st.dificuldades ++
            difs.map (fun d => (savedSub.id, d))
          nextSubmissaoID := st.nextSubmissaoID + 1 }) := by
  constructor
  · intro e he
    rw [saveSubmissionStats] at he ⊢
    by_cases hb : fails .beginTx
    · rw [if_pos hb] at he ⊢
      cases he
      exact ⟨rfl, hb⟩
    · rw [if_neg hb] at he ⊢
      revert he
      cases ht : txBody fails st sub dadas difs with
      | error e1 =>
        intro he
        cases he
        exact ⟨rfl, txBody_error fails st sub dadas difs e ht⟩
      | ok p =>
        intro he
        obtain ⟨st1, saved⟩ := p
        have he2 : (if fails DbOp.commitTx = true then
            (st, Except.error DbOp.commitTx)
          else (st1, Except.ok saved)).2 = Except.error e := he
        by_cases hc : fails .commitTx
        · rw [if_pos hc] at he2
          cases he2
          show (if fails DbOp.commitTx = true then (st, Except.error DbOp.commitTx)
            else (st1, Except.ok saved)).1 = st ∧ fails DbOp.commitTx = true
          rw [if_pos hc]
          exact ⟨rfl, hc⟩
        · rw [if_neg hc] at he2
          cases he2
  · intro savedSub hs
    rw [saveSubmissionStats] at hs ⊢
    by_cases hb : fails .beginTx
    · rw [if_pos hb] at hs
      cases hs
    · rw [if_neg hb] at hs ⊢
      revert hs
      cases ht : txBody fails st sub dadas difs with
      | error e1 =>
        intro hs
        cases hs
      | ok p =>
        intro hs
        obtain ⟨st1, saved⟩ := p
        have hs2 : (if fails DbOp.commitTx = true then
            (st, Except.error DbOp.commitTx)
          else (st1, Except.ok saved)).2 = Except.ok savedSub := hs
        by_cases hc : fails .commitTx
        · rw [if_pos hc] at hs2
          cases hs2
        · rw [if_neg hc] at hs2
          have hs3 : (Except.ok saved : Except DbOp Submissao) =
              Except.ok savedSub := hs2
          cases hs3
          obtain ⟨h1, h2⟩ := txBody_ok fails st sub dadas difs st1 savedSub ht
          refine ⟨h1, ?_⟩
          show (if fails DbOp.commitTx = true then (st, Except.error DbOp.commitTx)
            else (st1, Except.ok savedSub)).1 =
            { submissoes := st.submissoes ++ [savedSub]
              respostasDadas := st.respostasDadas ++
                dadas.map (fun d => (savedSub.id, d))
              dificuldades := st.dificuldades ++
                difs.map (fun d => (savedSub.id, d))
              nextSubmissaoID := st.nextSubmissaoID + 1 }
          rw [if_neg hc]
          exact h2

theorem c3_save_all_or_nothing_witness :
    ((saveSubmissionStats (fun _ => false) (DBState.mk [] [] [] 1)
        (Submissao.mk 0 0 0 9 4) [RespostaDada.mk 2 (some 20) (some true)]
        [Dificuldade.mk (some "X")]).2 =
      Except.ok (Submissao.mk 1 0 0 9 4)) ∧
    (Submissao.mk 1 0 0 9 4 =
      { Submissao.mk 0 0 0 9 4 with
          id := (DBState.mk [] [] [] 1).nextSubmissaoID } ∧
     (saveSubmissionStats (fun _ => false) (DBState.mk [] [] [] 1)
        (Submissao.mk 0 0 0 9 4) [RespostaDada.mk 2 (some 20) (some true)]
        [Dificuldade.mk (some "X")]).1 =
      { submissoes := (DBState.mk [] [] [] 1).submissoes ++ [Submissao.mk 1 0 0 9 4]
        respostasDadas := (DBState.mk [] [] [] 1).respostasDadas ++
          [RespostaDada.mk 2 (some 20) (some true)].map
            (fun d => ((Submissao.mk 1 0 0 9 4).id, d))
        dificuldades := (DBState.mk [] [] [] 1).dificuldades ++
          [Dificuldade.mk (some "X")].map
            (fun d => ((Submissao.mk 1 0 0 9 4).id, d))
        nextSubmissaoID := (DBState.mk [] [] [] 1).nextSubmissaoID + 1 }) :=
  ⟨rfl,
    (c3_save_all_or_nothing (fun _ => false) (DBState.mk [] [] [] 1)
      (Submissao.mk 0 0 0 9 4) [RespostaDada.mk 2 (some 20) (some true)]
      [Dificuldade.mk (some "X")]).2 (Submissao.mk 1 0 0 9 4) rfl⟩

/-- Membership in a question's join-row group. -/
theorem detailGroup_mem (rows : List SubmissionDetailDBRow) (k : Int)
    (r : SubmissionDetailDBRow) :
    r ∈ detailGroup rows k ↔ r ∈ rows ∧ r.perguntaID = k := by
  rw [detailGroup, List.mem_filter]
  constructor
  · exact fun ⟨h1, h2⟩ => ⟨h1, of_decide_eq_true h2⟩
  · exact fun ⟨h1, h2⟩ => ⟨h1, decide_eq_true h2⟩

theorem lookupA_buildPerguntasMap (rows : List SubmissionDetailDBRow) (k : Int) :
    lookupA (buildPerguntasMap rows) k =
      match detailGroup rows k with
      | [] => none
      | h :: t => some ((h :: t).foldl updQuestionDetail (initQuestionDetail h)) := by
  rw [buildPerguntasMap, lookupA_groupFold]
  rw [detailGroup] at *
  cases rows.filter (fun r => decide (r.perguntaID = k)) with
  | nil => rfl
  | cons h t => simp [groupAgg]

theorem updQuestionDetail_preserves (a : QuestionDetailResponse)
    (r : SubmissionDetailDBRow) :
    (updQuestionDetail a r).perguntaID = a.perguntaID ∧
    (updQuestionDetail a r).corpoPergunta = a.corpoPergunta ∧
    (updQuestionDetail a r).assunto = a.assunto ∧
    (updQuestionDetail a r).acertou = a.acertou := by
  rw [updQuestionDetail]
  by_cases h1 : r.correta <;>
    by_cases h2 : r.respostaDadaID = some r.respostaID <;>
      simp [h1, h2]

theorem header_foldl_updQuestionDetail :
    ∀ (l : List SubmissionDetailDBRow) (a : QuestionDetailResponse),
      (l.foldl updQuestionDetail a).perguntaID = a.perguntaID ∧
      (l.foldl updQuestionDetail a).corpoPergunta = a.corpoPergunta ∧
      (l.foldl updQuestionDetail a).assunto = a.assunto ∧
      (l.foldl updQuestionDetail a).acertou = a.acertou := by
  intro l
  induction l with
  | nil => intro a; exact ⟨rfl, rfl, rfl, rfl⟩
  | cons r rest ih =>
    intro a
    rw [List.foldl_cons]
    obtain ⟨i1, i2, i3, i4⟩ := ih (updQuestionDetail a r)
    obtain ⟨u1, u2, u3, u4⟩ := updQuestionDetail_preserves a r
    exact ⟨i1.trans u1, i2.trans u2, i3.trans u3, i4.trans u4⟩

theorem opcoes_foldl_updQuestionDetail :
    ∀ (l : List SubmissionDetailDBRow) (a : QuestionDetailResponse),
      (l.foldl updQuestionDetail a).opcoes =
        a.opcoes ++ l.map (fun r =>
          { respostaID := r.respostaID, corpo := r.corpoResposta }) := by
  intro l
  induction l with
  | nil => intro a; simp
  | cons r rest ih =>
    intro a
    rw [List.foldl_cons, ih]
    have hstep : (updQuestionDetail a r).opcoes =
        a.opcoes ++ [{ respostaID := r.respostaID, corpo := r.corpoResposta }] := by
      rw [updQuestionDetail]
      by_cases h1 : r.correta <;>
        by_cases h2 : r.respostaDadaID = some r.respostaID <;>
          simp [h1, h2]
    rw [hstep]
    simp

theorem respostaCorreta_foldl_updQuestionDetail :
    ∀ (l : List SubmissionDetailDBRow) (a : QuestionDetailResponse),
      (l.foldl updQuestionDetail a).respostaCorreta =
        match lastMatch? (fun r => r.correta) l with
        | some r => r.corpoResposta
        | none => a.respostaCorreta := by
  intro l
  induction l with
  | nil => intro a; rfl
  | cons r rest ih =>
    intro a
    rw [List.foldl_cons, ih]
    simp only [lastMatch?]
    cases lastMatch? (fun r => r.correta) rest with
    | some r1 => rfl
    | none =>
      have hstep : (updQuestionDetail a r).respostaCorreta =
          if r.correta then r.corpoResposta else a.respostaCorreta := by
        rw [updQuestionDetail]
        by_cases h1 : r.correta <;>
          by_cases h2 : r.respostaDadaID = some r.respostaID <;>
            simp [h1, h2]
      rw [hstep]
      by_cases h1 : r.correta <;> simp [h1]

theorem respostaUtilizador_foldl_updQuestionDetail :
    ∀ (l : List SubmissionDetailDBRow) (a : QuestionDetailResponse),
      (l.foldl updQuestionDetail a).respostaUtilizador =
        match lastMatch? (fun r => decide (r.respostaDadaID = some r.respostaID)) l with
        | some r => some r.corpoResposta
        | none => a.respostaUtilizador := by
  intro l
  induction l with
  | nil => intro a; rfl
  | cons r rest ih =>
    intro a
    rw [List.foldl_cons, ih]
    simp only [lastMatch?]
    cases lastMatch? (fun r => decide (r.respostaDadaID = some r.respostaID)) rest with
    | some r1 => rfl
    | none =>
      have hstep : (updQuestionDetail a r).respostaUtilizador =
          if r.respostaDadaID = some r.respostaID then some r.corpoResposta
          else a.respostaUtilizador := by
        rw [updQuestionDetail]
        by_cases h1 : r.correta <;>
          by_cases h2 : r.respostaDadaID = some r.respostaID <;>
            simp [h1, h2]
      rw [hstep]
      by_cases h2 : r.respostaDadaID = some r.respostaID <;> simp [h2]

/-- Full characterisation of one detail entry: the entry under question id
`k` exists iff `k` has join rows; its header fields come from the group's
first row, its option list is exactly the group's rows in order, the
correct text is the last `correta` row's text, and the user's answer text
is the last row whose left-joined given-answer id equals its own option
id. -/
theorem detailInfo_characterisation (rows : List SubmissionDetailDBRow)
    (k : Int) (d : QuestionDetailResponse)
    (h : lookupA (buildPerguntasMap rows) k = some d) :
    ∃ h₀ tl, detailGroup rows k = h₀ :: tl ∧ h₀ ∈ rows ∧ h₀.perguntaID = k ∧
      d.perguntaID = h₀.perguntaID ∧
      d.corpoPergunta = h₀.corpoPergunta ∧
      d.assunto = h₀.assunto ∧
      d.acertou = (match h₀.corretaNaSubmissao with
                   | some b => b
                   | none => false) ∧
      d.opcoes = (detailGroup rows k).map (fun r =>
        { respostaID := r.respostaID, corpo := r.corpoResposta }) ∧
      d.respostaCorreta =
        (match lastMatch? (fun r => r.correta) (detailGroup rows k) with
         | some r => r.corpoResposta
         | none => "") ∧
      d.respostaUtilizador =
        (match lastMatch? (fun r => decide (r.respostaDadaID = some r.respostaID))
            (detailGroup rows k) with
         | some r => some r.corpoResposta
         | none => none) := by
  rw [lookupA_buildPerguntasMap] at h
  cases hg : detailGroup rows k with
  | nil => rw [hg] at h; cases h
  | cons h₀ tl =>
    rw [hg] at h
    have hd : d = (h₀ :: tl).foldl updQuestionDetail (initQuestionDetail h₀) :=
      (Option.some_inj.mp h).symm
    have hmem : h₀ ∈ detailGroup rows k := by
      rw [hg]; exact List.mem_cons_self h₀ tl
    obtain ⟨hmem1, hmem2⟩ := (detailGroup_mem rows k h₀).mp hmem
    obtain ⟨f1, f2, f3, f4⟩ :=
      header_foldl_updQuestionDetail (h₀ :: tl) (initQuestionDetail h₀)
    refine ⟨h₀, tl, rfl, hmem1, hmem2, ?_, ?_, ?_, ?_, ?_, ?_, ?_⟩
    · rw [hd, f1]; rfl
    · rw [hd, f2]; rfl
    · rw [hd, f3]; rfl
    · rw [hd, f4]; rfl
    · rw [hd, opcoes_foldl_updQuestionDetail]
      rfl
    · rw [hd, respostaCorreta_foldl_updQuestionDetail]
      cases lastMatch? (fun r => r.correta) (h₀ :: tl) <;> rfl
    · rw [hd, respostaUtilizador_foldl_updQuestionDetail]
      cases lastMatch? (fun r => decide (r.respostaDadaID = some r.respostaID))
        (h₀ :: tl) <;> rfl

theorem filterMap_lookup_ids (pm : List (Int × QuestionDetailResponse)) :
    ∀ eo : List Int,
      (∀ k ∈ eo, ∃ d, lookupA pm k = some d ∧ d.perguntaID = k) →
      ((eo.filterMap (fun k => lookupA pm k)).map
        (fun p => p.perguntaID)) = eo := by
  intro eo
  induction eo with
  | nil => intro _; rfl
  | cons k rest ih =>
    intro hall
    obtain ⟨d, hd, hid⟩ := hall k (List.mem_cons_self k rest)
    rw [List.filterMap_cons, hd, List.map_cons, hid,
        ih (fun k' hk' => hall k' (List.mem_cons_of_mem k hk'))]

/-- C6 is false as stated: the final loop of `GetSubmissionDetails` ranges
over a Go map, whose iteration order is unspecified, so the emitted
question order is whatever order the runtime enumerates the keys in — not
necessarily first-encountered order, and not deterministic across runs.
With two questions first encountered as 1 then 2, the enumeration [2, 1]
is a legitimate key order and produces the questions in the order [2, 1],
different from the reconstruction under the enumeration [1, 2]. -/
theorem c6_order_counterexample :
    List.Perm [2, 1]
      (keysA (buildPerguntasMap
        [SubmissionDetailDBRow.mk 1 1 "Q" "T" 0 0 1 "P1" none 11 "A" true none none,
         SubmissionDetailDBRow.mk 1 1 "Q" "T" 0 0 2 "P2" none 21 "B" true none none])) ∧
    (getSubmissionDetails
        [SubmissionDetailDBRow.mk 1 1 "Q" "T" 0 0 1 "P1" none 11 "A" true none none,
         SubmissionDetailDBRow.mk 1 1 "Q" "T" 0 0 2 "P2" none 21 "B" true none none]
        [2, 1]).map (fun resp => resp.perguntas.map (fun p => p.perguntaID)) =
      some [2, 1] ∧
    (getSubmissionDetails
        [SubmissionDetailDBRow.mk 1 1 "Q" "T" 0 0 1 "P1" none 11 "A" true none none,
         SubmissionDetailDBRow.mk 1 1 "Q" "T" 0 0 2 "P2" none 21 "B" true none none]
        [1, 2]).map (fun resp => resp.perguntas.map (fun p => p.perguntaID)) =
      some [1, 2] ∧
    getSubmissionDetails
        [SubmissionDetailDBRow.mk 1 1 "Q" "T" 0 0 1 "P1" none 11 "A" true none none,
         SubmissionDetailDBRow.mk 1 1 "Q" "T" 0 0 2 "P2" none 21 "B" true none none]
        [2, 1] ≠
      getSubmissionDetails
        [SubmissionDetailDBRow.mk 1 1 "Q" "T" 0 0 1 "P1" none 11 "A" true none none,
         SubmissionDetailDBRow.mk 1 1 "Q" "T" 0 0 2 "P2" none 21 "B" true none none]
        [1, 2] := by
  have ha : (getSubmissionDetails
      [SubmissionDetailDBRow.mk 1 1 "Q" "T" 0 0 1 "P1" none 11 "A" true none none,
       SubmissionDetailDBRow.mk 1 1 "Q" "T" 0 0 2 "P2" none 21 "B" true none none]
      [2, 1]).map (fun resp => resp.perguntas.map (fun p => p.perguntaID)) =
      some [2, 1] := by decide
  have hb : (getSubmissionDetails
      [SubmissionDetailDBRow.mk 1 1 "Q" "T" 0 0 1 "P1" none 11 "A" true none none,
       SubmissionDetailDBRow.mk 1 1 "Q" "T" 0 0 2 "P2" none 21 "B" true none none]
      [1, 2]).map (fun resp => resp.perguntas.map (fun p => p.perguntaID)) =
      some [1, 2] := by decide
  refine ⟨by decide, ha, hb, ?_⟩
  intro heq
  have h2 := congrArg
    (Option.map (fun resp => resp.perguntas.map (fun p => p.perguntaID))) heq
  rw [ha, hb] at h2
  cases h2

/-- C6 (amended): for every enumeration of the grouping map's keys (each
key exactly once — all a Go map range guarantees), the reconstructed view
contains exactly the grouped questions, one entry per distinct question
id, with the question ids listed in that enumeration order; the multiset
of emitted questions is therefore deterministic, but their order is
whatever the map iteration happens to be, not necessarily first-seen
order. -/
theorem c6_amended_emit_order (rows : List SubmissionDetailDBRow)
    (emitOrder : List Int) (hne : rows ≠ [])
    (hperm : emitOrder.Perm (keysA (buildPerguntasMap rows))) :
    ∃ resp, getSubmissionDetails rows emitOrder = some resp ∧
      resp.perguntas.map (fun p => p.perguntaID) = emitOrder ∧
      (resp.perguntas.map (fun p => p.perguntaID)).Perm
        (keysA (buildPerguntasMap rows)) := by
  have hall : ∀ k ∈ emitOrder, ∃ d,
      lookupA (buildPerguntasMap rows) k = some d ∧ d.perguntaID = k := by
    intro k hk
    have hmem : k ∈ keysA (buildPerguntasMap rows) := hperm.subset hk
    have hsome := (lookupA_isSome_iff_mem (buildPerguntasMap rows) k).mpr hmem
    cases hl : lookupA (buildPerguntasMap rows) k with
    | none => rw [hl] at hsome; simp at hsome
    | some d =>
      obtain ⟨h₀, tl, _, _, hid, hqid, _⟩ :=
        detailInfo_characterisation rows k d hl
      exact ⟨d, rfl, hqid.trans hid⟩
  cases rows with
  | nil => exact absurd rfl hne
  | cons r0 rest =>
    refine ⟨_, rfl, ?_, ?_⟩
    · exact filterMap_lookup_ids (buildPerguntasMap (r0 :: rest)) emitOrder hall
    · rw [filterMap_lookup_ids (buildPerguntasMap (r0 :: rest)) emitOrder hall]
      exact hperm

theorem c6_amended_emit_order_witness :
    ([SubmissionDetailDBRow.mk 1 1 "Q" "T" 0 0 1 "P1" none 11 "A" true none none,
      SubmissionDetailDBRow.mk 1 1 "Q" "T" 0 0 2 "P2" none 21 "B" true none none] ≠
      ([] : List SubmissionDetailDBRow)) ∧
    List.Perm [2, 1]
      (keysA (buildPerguntasMap
        [SubmissionDetailDBRow.mk 1 1 "Q" "T" 0 0 1 "P1" none 11 "A" true none none,
         SubmissionDetailDBRow.mk 1 1 "Q" "T" 0 0 2 "P2" none 21 "B" true none none])) ∧
    (∃ resp, getSubmissionDetails
        [SubmissionDetailDBRow.mk 1 1 "Q" "T" 0 0 1 "P1" none 11 "A" true none none,
         SubmissionDetailDBRow.mk 1 1 "Q" "T" 0 0 2 "P2" none 21 "B" true none none]
        [2, 1] = some resp ∧
      resp.perguntas.map (fun p => p.perguntaID) = [2, 1] ∧
      (resp.perguntas.map (fun p => p.perguntaID)).Perm
        (keysA (buildPerguntasMap
          [SubmissionDetailDBRow.mk 1 1 "Q" "T" 0 0 1 "P1" none 11 "A" true none none,
           SubmissionDetailDBRow.mk 1 1 "Q" "T" 0 0 2 "P2" none 21 "B" true none none]))) :=
  ⟨by decide, by decide,
    c6_amended_emit_order
      [SubmissionDetailDBRow.mk 1 1 "Q" "T" 0 0 1 "P1" none 11 "A" true none none,
       SubmissionDetailDBRow.mk 1 1 "Q" "T" 0 0 2 "P2" none 21 "B" true none none]
      [2, 1] (by decide) (by decide)⟩

/-- C9: over non-empty detail rows, the reconstruction emits exactly one
question entry per distinct question id (N entries); each entry's option
list is exactly the question's rows in order; the correct-answer text is
the text of the option whose correctness boolean is true; the chosen
answer is the text of the option whose id equals the left-joined
given-answer id, and is absent when no option matches; and the
answered-correctly flag equals the stored given-answer flag, `false` when
the user never answered. The hypotheses state the invariants of the SQL
join: per-question fields agree across a question's rows, option rows are
distinct, and correct options share their text (the schema's
one-correct-option assumption). -/
theorem c9_detail_content (rows : List SubmissionDetailDBRow)
    (emitOrder : List Int) (hne : rows ≠ [])
    (hperm : emitOrder.Perm (keysA (buildPerguntasMap rows)))
    (hconsist : ∀ r ∈ rows, ∀ r' ∈ rows, r.perguntaID = r'.perguntaID →
      r.corpoPergunta = r'.corpoPergunta ∧ r.assunto = r'.assunto ∧
      r.respostaDadaID = r'.respostaDadaID ∧
      r.corretaNaSubmissao = r'.corretaNaSubmissao)
    (hids : ∀ r ∈ rows, ∀ r' ∈ rows, r.perguntaID = r'.perguntaID →
      r.respostaID = r'.respostaID → r = r')
    (hcor : ∀ r ∈ rows, ∀ r' ∈ rows, r.perguntaID = r'.perguntaID →
      r.correta = true → r'.correta = true →
      r.corpoResposta = r'.corpoResposta) :
    ∃ resp, getSubmissionDetails rows emitOrder = some resp ∧
      resp.perguntas.length = (keysA (buildPerguntasMap rows)).length ∧
      ∀ p ∈ resp.perguntas,
        p.opcoes = (detailGroup rows p.perguntaID).map (fun r =>
          { respostaID := r.respostaID, corpo := r.corpoResposta }) ∧
        (∀ r ∈ detailGroup rows p.perguntaID, r.correta = true →
          p.respostaCorreta = r.corpoResposta) ∧
        (∀ r ∈ detailGroup rows p.perguntaID,
          r.respostaDadaID = some r.respostaID →
          p.respostaUtilizador = some r.corpoResposta) ∧
        ((∀ r ∈ detailGroup rows p.perguntaID,
            ¬ r.respostaDadaID = some r.respostaID) →
          p.respostaUtilizador = none) ∧
        (∀ r ∈ detailGroup rows p.perguntaID,
          p.acertou = (match r.corretaNaSubmissao with
                       | some b => b
                       | none => false)) := by
  have hall : ∀ k ∈ emitOrder, ∃ d,
      lookupA (buildPerguntasMap rows) k = some d ∧ d.perguntaID = k := by
    intro k hk
    have hmem : k ∈ keysA (buildPerguntasMap rows) := hperm.subset hk
    have hsome := (lookupA_isSome_iff_mem (buildPerguntasMap rows) k).mpr hmem
    cases hl : lookupA (buildPerguntasMap rows) k with
    | none => rw [hl] at hsome; simp at hsome
    | some d =>
      obtain ⟨h₀, tl, _, _, hid, hqid, _⟩ :=
        detailInfo_characterisation rows k d hl
      exact ⟨d, rfl, hqid.trans hid⟩
  cases rows with
  | nil => exact absurd rfl hne
  | cons r0 rest =>
    refine ⟨_, rfl, ?_, ?_⟩
    · have hmap := filterMap_lookup_ids (buildPerguntasMap (r0 :: rest)) emitOrder hall
      have hlen := congrArg List.length hmap
      rw [List.length_map] at hlen
      rw [hlen]
      exact hperm.length_eq
    · intro p hp
      obtain ⟨k, hk, hlk⟩ := List.mem_filterMap.mp hp
      obtain ⟨h₀, tl, hg, hm1, hm2, hqid, hcp, has, hac, hopc, hrc, hru⟩ :=
        detailInfo_characterisation (r0 :: rest) k p hlk
      have hpk : p.perguntaID = k := hqid.trans hm2
      rw [hpk]
      refine ⟨hopc, ?_, ?_, ?_, ?_⟩
      · intro r hr hcorr
        obtain ⟨hr1, hr2⟩ := (detailGroup_mem _ k r).mp hr
        have hsome := lastMatch_isSome_of_mem (fun r => r.correta)
          (detailGroup (r0 :: rest) k) r hr hcorr
        cases hlm : lastMatch? (fun r => r.correta) (detailGroup (r0 :: rest) k) with
        | none => rw [hlm] at hsome; simp at hsome
        | some r1 =>
          obtain ⟨hr1m, hr1c⟩ := lastMatch?_eq_some _ _ _ hlm
          obtain ⟨hr11, hr12⟩ := (detailGroup_mem _ k r1).mp hr1m
          rw [hrc, hlm]
          show r1.corpoResposta = r.corpoResposta
          exact hcor r1 hr11 r hr1 (hr12.trans hr2.symm) hr1c hcorr
      · intro r hr hgiven
        obtain ⟨hr1, hr2⟩ := (detailGroup_mem _ k r).mp hr
        have hpred : decide (r.respostaDadaID = some r.respostaID) = true :=
          decide_eq_true hgiven
        have hsome := lastMatch_isSome_of_mem
          (fun r => decide (r.respostaDadaID = some r.respostaID))
          (detailGroup (r0 :: rest) k) r hr hpred
        cases hlm : lastMatch?
            (fun r => decide (r.respostaDadaID = some r.respostaID))
            (detailGroup (r0 :: rest) k) with
        | none => rw [hlm] at hsome; simp at hsome
        | some r1 =>
          obtain ⟨hr1m, hr1p⟩ := lastMatch?_eq_some _ _ _ hlm
          obtain ⟨hr11, hr12⟩ := (detailGroup_mem _ k r1).mp hr1m
          have hg1 : r1.respostaDadaID = some r1.respostaID :=
            of_decide_eq_true hr1p
          have hcon := hconsist r1 hr11 r hr1 (hr12.trans hr2.symm)
          have hsameid : r1.respostaID = r.respostaID := by
            have h5 : r1.respostaDadaID = r.respostaDadaID := hcon.2.2.1
            rw [hg1, hgiven] at h5
            exact Option.some_inj.mp h5
          have heqr : r1 = r := hids r1 hr11 r hr1 (hr12.trans hr2.symm) hsameid
          rw [hru, hlm]
          show some r1.corpoResposta = some r.corpoResposta
          rw [heqr]
      · intro hnone
        have hlm : lastMatch?
            (fun r => decide (r.respostaDadaID = some r.respostaID))
            (detailGroup (r0 :: rest) k) = none := by
          apply lastMatch?_eq_none
          intro r hr
          exact decide_eq_false (hnone r hr)
        rw [hru, hlm]
      · intro r hr
        obtain ⟨hr1, hr2⟩ := (detailGroup_mem _ k r).mp hr
        have hcon := hconsist h₀ hm1 r hr1 (hm2.trans hr2.symm)
        rw [hac, hcon.2.2.2]

theorem c9_detail_content_witness :
    ([SubmissionDetailDBRow.mk 1 1 "Q" "T" 0 0 1 "P1" none 11 "A" true (some 11) (some true),
       SubmissionDetailDBRow.mk 1 1 "Q" "T" 0 0 1 "P1" none 12 "B" false (some 11) (some true),
       SubmissionDetailDBRow.mk 1 1 "Q" "T" 0 0 2 "P2" none 21 "B" true none none] ≠ ([] : List SubmissionDetailDBRow)) ∧
    List.Perm [1, 2] (keysA (buildPerguntasMap [SubmissionDetailDBRow.mk 1 1 "Q" "T" 0 0 1 "P1" none 11 "A" true (some 11) (some true),
       SubmissionDetailDBRow.mk 1 1 "Q" "T" 0 0 1 "P1" none 12 "B" false (some 11) (some true),
       SubmissionDetailDBRow.mk 1 1 "Q" "T" 0 0 2 "P2" none 21 "B" true none none])) ∧
    (∀ r ∈ [SubmissionDetailDBRow.mk 1 1 "Q" "T" 0 0 1 "P1" none 11 "A" true (some 11) (some true),
       SubmissionDetailDBRow.mk 1 1 "Q" "T" 0 0 1 "P1" none 12 "B" false (some 11) (some true),
       SubmissionDetailDBRow.mk 1 1 "Q" "T" 0 0 2 "P2" none 21 "B" true none none], ∀ r' ∈ [SubmissionDetailDBRow.mk 1 1 "Q" "T" 0 0 1 "P1" none 11 "A" true (some 11) (some true),
       SubmissionDetailDBRow.mk 1 1 "Q" "T" 0 0 1 "P1" none 12 "B" false (some 11) (some true),
       SubmissionDetailDBRow.mk 1 1 "Q" "T" 0 0 2 "P2" none 21 "B" true none none], r.perguntaID = r'.perguntaID →
      r.corpoPergunta = r'.corpoPergunta ∧ r.assunto = r'.assunto ∧
      r.respostaDadaID = r'.respostaDadaID ∧
      r.corretaNaSubmissao = r'.corretaNaSubmissao) ∧
    (∀ r ∈ [SubmissionDetailDBRow.mk 1 1 "Q" "T" 0 0 1 "P1" none 11 "A" true (some 11) (some true),
       SubmissionDetailDBRow.mk 1 1 "Q" "T" 0 0 1 "P1" none 12 "B" false (some 11) (some true),
       SubmissionDetailDBRow.mk 1 1 "Q" "T" 0 0 2 "P2" none 21 "B" true none none], ∀ r' ∈ [SubmissionDetailDBRow.mk 1 1 "Q" "T" 0 0 1 "P1" none 11 "A" true (some 11) (some true),
       SubmissionDetailDBRow.mk 1 1 "Q" "T" 0 0 1 "P1" none 12 "B" false (some 11) (some true),
       SubmissionDetailDBRow.mk 1 1 "Q" "T" 0 0 2 "P2" none 21 "B" true none none], r.perguntaID = r'.perguntaID →
      r.respostaID = r'.respostaID → r = r') ∧
    (∀ r ∈ [SubmissionDetailDBRow.mk 1 1 "Q" "T" 0 0 1 "P1" none 11 "A" true (some 11) (some true),
       SubmissionDetailDBRow.mk 1 1 "Q" "T" 0 0 1 "P1" none 12 "B" false (some 11) (some true),
       SubmissionDetailDBRow.mk 1 1 "Q" "T" 0 0 2 "P2" none 21 "B" true none none], ∀ r' ∈ [SubmissionDetailDBRow.mk 1 1 "Q" "T" 0 0 1 "P1" none 11 "A" true (some 11) (some true),
       SubmissionDetailDBRow.mk 1 1 "Q" "T" 0 0 1 "P1" none 12 "B" false (some 11) (some true),
       SubmissionDetailDBRow.mk 1 1 "Q" "T" 0 0 2 "P2" none 21 "B" true none none], r.perguntaID = r'.perguntaID →
      r.correta = true → r'.correta = true →
      r.corpoResposta = r'.corpoResposta) ∧
    (∃ resp, getSubmissionDetails [SubmissionDetailDBRow.mk 1 1 "Q" "T" 0 0 1 "P1" none 11 "A" true (some 11) (some true),
       SubmissionDetailDBRow.mk 1 1 "Q" "T" 0 0 1 "P1" none 12 "B" false (some 11) (some true),
       SubmissionDetailDBRow.mk 1 1 "Q" "T" 0 0 2 "P2" none 21 "B" true none none] [1, 2] = some resp ∧
      resp.perguntas.length = (keysA (buildPerguntasMap [SubmissionDetailDBRow.mk 1 1 "Q" "T" 0 0 1 "P1" none 11 "A" true (some 11) (some true),
       SubmissionDetailDBRow.mk 1 1 "Q" "T" 0 0 1 "P1" none 12 "B" false (some 11) (some true),
       SubmissionDetailDBRow.mk 1 1 "Q" "T" 0 0 2 "P2" none 21 "B" true none none])).length ∧
      ∀ p ∈ resp.perguntas,
        p.opcoes = (detailGroup [SubmissionDetailDBRow.mk 1 1 "Q" "T" 0 0 1 "P1" none 11 "A" true (some 11) (some true),
       SubmissionDetailDBRow.mk 1 1 "Q" "T" 0 0 1 "P1" none 12 "B" false (some 11) (some true),
       SubmissionDetailDBRow.mk 1 1 "Q" "T" 0 0 2 "P2" none 21 "B" true none none] p.perguntaID).map (fun r =>
          { respostaID := r.respostaID, corpo := r.corpoResposta }) ∧
        (∀ r ∈ detailGroup [SubmissionDetailDBRow.mk 1 1 "Q" "T" 0 0 1 "P1" none 11 "A" true (some 11) (some true),
       SubmissionDetailDBRow.mk 1 1 "Q" "T" 0 0 1 "P1" none 12 "B" false (some 11) (some true),
       SubmissionDetailDBRow.mk 1 1 "Q" "T" 0 0 2 "P2" none 21 "B" true none none] p.perguntaID, r.correta = true →
          p.respostaCorreta = r.corpoResposta) ∧
        (∀ r ∈ detailGroup [SubmissionDetailDBRow.mk 1 1 "Q" "T" 0 0 1 "P1" none 11 "A" true (some 11) (some true),
       SubmissionDetailDBRow.mk 1 1 "Q" "T" 0 0 1 "P1" none 12 "B" false (some 11) (some true),
       SubmissionDetailDBRow.mk 1 1 "Q" "T" 0 0 2 "P2" none 21 "B" true none none] p.perguntaID,
          r.respostaDadaID = some r.respostaID →
          p.respostaUtilizador = some r.corpoResposta) ∧
        ((∀ r ∈ detailGroup [SubmissionDetailDBRow.mk 1 1 "Q" "T" 0 0 1 "P1" none 11 "A" true (some 11) (some true),
       SubmissionDetailDBRow.mk 1 1 "Q" "T" 0 0 1 "P1" none 12 "B" false (some 11) (some true),
       SubmissionDetailDBRow.mk 1 1 "Q" "T" 0 0 2 "P2" none 21 "B" true none none] p.perguntaID,
            ¬ r.respostaDadaID = some r.respostaID) →
          p.respostaUtilizador = none) ∧
        (∀ r ∈ detailGroup [SubmissionDetailDBRow.mk 1 1 "Q" "T" 0 0 1 "P1" none 11 "A" true (some 11) (some true),
       SubmissionDetailDBRow.mk 1 1 "Q" "T" 0 0 1 "P1" none 12 "B" false (some 11) (some true),
       SubmissionDetailDBRow.mk 1 1 "Q" "T" 0 0 2 "P2" none 21 "B" true none none] p.perguntaID,
          p.acertou = (match r.corretaNaSubmissao with
                       | some b => b
                       | none => false))) :=
  ⟨by decide, by decide, by decide, by decide, by decide,
    c9_detail_content [SubmissionDetailDBRow.mk 1 1 "Q" "T" 0 0 1 "P1" none 11 "A" true (some 11) (some true),
       SubmissionDetailDBRow.mk 1 1 "Q" "T" 0 0 1 "P1" none 12 "B" false (some 11) (some true),
       SubmissionDetailDBRow.mk 1 1 "Q" "T" 0 0 2 "P2" none 21 "B" true none none]
      [1, 2] (by decide) (by decide) (by decide) (by decide) (by decide)⟩

end QuizCore
